import Mathlib

/-!
Verification of the media session lifecycle manager (`AgoraService`,
src/web/src/voice/AgoraService.ts) of the avatar-rooms repository.

The service is a single-instance state machine driving an external real-time
transport.  We give a shallow embedding: the mutable class instance becomes the
record `AgoraService`; each method becomes a pure function from the record (plus
an oracle giving the results of the external transport calls it awaits) to a new
record together with a list of observable `Output`s (subscriber notifications,
transport calls, operation executions).  The public surface and the transport
event handlers are collected into a `Command` alphabet and an interpreter `run`;
one command is interpreted atomically (its awaits resolved by the oracles it
carries).  A separate drain model (`drainLoopI`) additionally lets the
environment change the connection state between loop iterations, modelling an
event handler firing during an awaited operation inside the drain loop.
-/

namespace AvatarRooms

/-- Connection states, from `enum AgoraServiceState` in src/web/src/voice/types.ts.
The enum also declares `JOINED`, which the service never transitions to. -/
inductive AgoraServiceState where
  | IDLE
  | INITIALIZING
  | JOINING
  | JOINED
  | READY
  | PUBLISHING
  | PUBLISHED
  | ERROR
  | RECONNECTING
deriving DecidableEq

/-- Error taxonomy, from `enum ErrorType`. -/
inductive ErrorType where
  | NETWORK
  | PERMISSION
  | SDK
  | UNKNOWN
deriving DecidableEq

/-- A raw failure as consumed by `classifyError`: the message text
(`error?.message || String(error)`) and the optional provider code
(`error?.code`; numeric codes never equal the string constants the
classifier compares against, so codes are kept as strings). -/
structure RawError where
  message : String
  code : Option String
deriving DecidableEq

/-- Classified error, from `interface ServiceError` (the opaque
`originalError` reference is not modelled). -/
structure ServiceError where
  type : ErrorType
  message : String
  code : Option String
  recoverable : Bool
deriving DecidableEq

/-- Operation tags, from `enum OperationType`.  `JOIN` and `LEAVE` are declared
but never enqueued by the service; `executeOperation` treats them as unknown. -/
inductive OperationType where
  | JOIN
  | PUBLISH_VIDEO
  | PUBLISH_AUDIO
  | UNPUBLISH_VIDEO
  | UNPUBLISH_AUDIO
  | LEAVE
deriving DecidableEq

/-- A queued operation, from `interface QueuedOperation`.  The payload of a
video publish is the raw `MediaStreamTrack`, modelled by a numeric identity.
`retryCount` starts unset in the source; unset is modelled as `0`, which the
source treats identically (`!operation.retryCount || operation.retryCount < 3`
is equivalent to `retryCount < 3` with unset read as 0). -/
structure QueuedOperation where
  type : OperationType
  payload : Option Nat := none
  retryCount : Nat := 0
  timestamp : Nat := 0
deriving DecidableEq

/-- An outbound track handle (`ILocalAudioTrack` / `ILocalVideoTrack`): its
identity and its enabled flag (`setEnabled`). -/
structure TrackHandle where
  trackId : Nat
  enabled : Bool
deriving DecidableEq

/-- Track references, from `interface TrackReferences`. -/
structure TrackReferences where
  audioTrack : Option TrackHandle := none
  videoTrack : Option TrackHandle := none
deriving DecidableEq

/-- Service configuration (the fields the control logic reads; `token`,
`codec` and `mode` are passed through to the transport and have no effect on
the modelled behaviour). -/
structure AgoraServiceConfig where
  appId : String
  maxReconnectAttempts : Nat
  reconnectBackoffBase : Nat
  reconnectBackoffMax : Nat
deriving DecidableEq

/-- `DEFAULT_CONFIG` of AgoraService.ts: `maxReconnectAttempts: 5,
reconnectBackoffBase: 1000, reconnectBackoffMax: 30000`; the app id comes from
the environment and is kept as a parameter. -/
def DEFAULT_CONFIG (appId : String) : AgoraServiceConfig :=
  { appId := appId
    maxReconnectAttempts := 5
    reconnectBackoffBase := 1000
    reconnectBackoffMax := 30000 }

/-- The mutable fields of the `AgoraService` class instance.  `client` is
whether the transport client object exists; `reconnectTimer` is the pending
reconnection timer together with its delay (`none` when no timer is pending;
the source nulls the field in `leave()` and a fired timer is spent). -/
structure AgoraService where
  state : AgoraServiceState := AgoraServiceState.IDLE
  client : Bool := false
  config : AgoraServiceConfig := DEFAULT_CONFIG ""
  tracks : TrackReferences := {}
  operationQueue : List QueuedOperation := []
  isProcessingQueue : Bool := false
  reconnectAttempts : Nat := 0
  reconnectTimer : Option Nat := none
  pendingReconnect : Option (String × String) := none
  currentUid : Option String := none
  currentRoomCode : Option String := none
deriving DecidableEq

/-- A fresh service instance, as built by the constructor. -/
def mkService (config : AgoraServiceConfig) : AgoraService :=
  { config := config }

/-- State change event delivered to `onStateChange` subscribers, from
`interface StateChangeEvent`. -/
structure StateChangeEvent where
  previousState : AgoraServiceState
  newState : AgoraServiceState
  error : Option ServiceError := none
deriving DecidableEq

/-- Observable outputs of a step: subscriber notifications, transport calls,
and the execution of a queued operation (`attempt op st` records that
`executeOperation` ran `op` while the connection state was `st`). -/
inductive Output where
  | stateChange (previousState newState : AgoraServiceState) (error : Option ServiceError)
  | errorEmitted (error : ServiceError)
  | reconnection (attempt maxAttempts nextRetryDelay : Nat)
  | transportPublish (isVideo : Bool) (trackId : Nat)
  | transportUnpublish (isVideo : Bool)
  | attempt (op : QueuedOperation) (st : AgoraServiceState)
deriving DecidableEq

/-- Whether the character list starts with the given pattern. -/
def matchesAt : List Char → List Char → Bool
  | [], _ => true
  | _ :: _, [] => false
  | a :: as, b :: bs => a = b && matchesAt as bs

/-- Whether the pattern occurs as a contiguous run in the character list. -/
def containsSub (pat : List Char) : List Char → Bool
  | [] => matchesAt pat []
  | c :: rest => matchesAt pat (c :: rest) || containsSub pat rest

/-- JavaScript `String.prototype.includes` (case-sensitive substring test). -/
def jsIncludes (s pat : String) : Bool :=
  containsSub pat.toList s.toList

/-- `AgoraService.classifyError`, translated clause for clause: network
indicators first, then permission indicators, then the two SDK codes, else
`UNKNOWN` (recoverable). -/
def classifyError (error : RawError) : ServiceError :=
  if jsIncludes error.message "network" || jsIncludes error.message "connection" ||
      jsIncludes error.message "timeout" || error.code = some "NETWORK_ERROR" then
    { type := ErrorType.NETWORK, message := error.message, code := error.code, recoverable := true }
  else if jsIncludes error.message "permission" || jsIncludes error.message "denied" ||
      error.code = some "PERMISSION_DENIED" then
    { type := ErrorType.PERMISSION, message := error.message, code := error.code, recoverable := false }
  else if error.code = some "INVALID_OPERATION" || error.code = some "INVALID_PARAMETER" then
    { type := ErrorType.SDK, message := error.message, code := error.code, recoverable := true }
  else
    { type := ErrorType.UNKNOWN, message := error.message, code := error.code, recoverable := true }

/-- First condition of `classifyError`: message contains a network, connection
or timeout indicator, or the code is `NETWORK_ERROR`. -/
def networkIndicated (e : RawError) : Bool :=
  jsIncludes e.message "network" || jsIncludes e.message "connection" ||
    jsIncludes e.message "timeout" || e.code = some "NETWORK_ERROR"

/-- Second condition of `classifyError`: message or code indicates permission
denial. -/
def permissionIndicated (e : RawError) : Bool :=
  jsIncludes e.message "permission" || jsIncludes e.message "denied" ||
    e.code = some "PERMISSION_DENIED"

/-- Third condition of `classifyError`: one of the two SDK provider codes. -/
def sdkIndicated (e : RawError) : Bool :=
  e.code = some "INVALID_OPERATION" || e.code = some "INVALID_PARAMETER"

/-- Printed name of a state (the TS enum values are the state names). -/
def stateName : AgoraServiceState → String
  | AgoraServiceState.IDLE => "IDLE"
  | AgoraServiceState.INITIALIZING => "INITIALIZING"
  | AgoraServiceState.JOINING => "JOINING"
  | AgoraServiceState.JOINED => "JOINED"
  | AgoraServiceState.READY => "READY"
  | AgoraServiceState.PUBLISHING => "PUBLISHING"
  | AgoraServiceState.PUBLISHED => "PUBLISHED"
  | AgoraServiceState.ERROR => "ERROR"
  | AgoraServiceState.RECONNECTING => "RECONNECTING"

/-- `AgoraService.transitionTo`: no-op when the target equals the current
state; otherwise set the state and notify subscribers (the emitted
`stateChange` output).  The returned flag records whether the source would
call `processOperationQueue` at the end (it does so exactly when the new state
is `READY`); call sites outside a drain run the drain when the flag is set,
and call sites inside a drain discard it because the re-entrant call returns
immediately on the `isProcessingQueue` guard (proved as
`processOperationQueue_inFlight`). -/
def transitionTo (s : AgoraService) (newState : AgoraServiceState)
    (error : Option ServiceError) : AgoraService × List Output × Bool :=
  if s.state = newState then (s, [], false)
  else
    ({ s with state := newState },
     [Output.stateChange s.state newState error],
     decide (newState = AgoraServiceState.READY))

/-- Decidable equality for transport call results. -/
instance instDecEqExcept {α β : Type} [DecidableEq α] [DecidableEq β] :
    DecidableEq (Except α β) := fun x y =>
  match x, y with
  | Except.ok a, Except.ok b =>
    if h : a = b then Decidable.isTrue (by rw [h])
    else Decidable.isFalse (by intro hc; cases hc; exact h rfl)
  | Except.error a, Except.error b =>
    if h : a = b then Decidable.isTrue (by rw [h])
    else Decidable.isFalse (by intro hc; cases hc; exact h rfl)
  | Except.ok _, Except.error _ => Decidable.isFalse (by intro hc; cases hc)
  | Except.error _, Except.ok _ => Decidable.isFalse (by intro hc; cases hc)

/-- Oracle for the transport calls one drain-loop iteration may await:
the identity of a newly created custom video track, the result of
`createMicrophoneAudioTrack` (with the created track identity), and the
results of `client.publish` / `client.unpublish`. -/
structure IterOracle where
  newTrackId : Nat := 0
  micResult : Except RawError Nat := Except.ok 0
  publishResult : Except RawError Unit := Except.ok ()
  unpublishResult : Except RawError Unit := Except.ok ()
deriving DecidableEq

/-- `AgoraService.doPublishVideo`: throws when the client is missing or the
state is not READY/PUBLISHED; re-enables an existing video handle; otherwise
transitions to PUBLISHING, records the new handle, publishes it, and
transitions to PUBLISHED on success or back to READY on failure (re-queueing a
fresh PUBLISH_VIDEO operation instead of rethrowing on the specific
INVALID_OPERATION not-yet-joined failure).  The re-queue path appends via the
plain queue since the triggered drain inside `queueOperation` is a no-op while
a drain is in flight (`processOperationQueue_inFlight`). -/
def doPublishVideo (s : AgoraService) (payload : Option Nat) (newTrackId : Nat)
    (publishResult : Except RawError Unit) :
    AgoraService × List Output × Except RawError Unit :=
  if s.client = false then
    (s, [], Except.error { message := "Client not initialized", code := none })
  else if ¬(s.state = AgoraServiceState.READY ∨ s.state = AgoraServiceState.PUBLISHED) then
    (s, [], Except.error
      { message := "Cannot publish video in state: " ++ stateName s.state, code := none })
  else
    match s.tracks.videoTrack with
    | some t =>
      ({ s with tracks := { s.tracks with videoTrack := some { t with enabled := true } } },
       [], Except.ok ())
    | none =>
      let r₁ := transitionTo s AgoraServiceState.PUBLISHING none
      let s₂ := { r₁.1 with tracks :=
        { r₁.1.tracks with videoTrack := some { trackId := newTrackId, enabled := true } } }
      match publishResult with
      | Except.ok _ =>
        let r₃ := transitionTo s₂ AgoraServiceState.PUBLISHED none
        (r₃.1, r₁.2.1 ++ [Output.transportPublish true newTrackId] ++ r₃.2.1, Except.ok ())
      | Except.error raw =>
        let se := classifyError raw
        let r₃ := transitionTo s₂ AgoraServiceState.READY (some se)
        if se.code = some "INVALID_OPERATION" ∧ jsIncludes se.message "joined" = true then
          ({ r₃.1 with operationQueue := r₃.1.operationQueue ++
              [{ type := OperationType.PUBLISH_VIDEO, payload := payload }] },
           r₁.2.1 ++ [Output.transportPublish true newTrackId] ++ r₃.2.1, Except.ok ())
        else
          (r₃.1, r₁.2.1 ++ [Output.transportPublish true newTrackId] ++ r₃.2.1,
           Except.error raw)

/-- `AgoraService.doPublishAudio`: same guards; re-enables an existing audio
handle; otherwise acquires a microphone track, records the handle, publishes
it; on failure it classifies, emits the error itself, and rethrows. -/
def doPublishAudio (s : AgoraService) (micResult : Except RawError Nat)
    (publishResult : Except RawError Unit) :
    AgoraService × List Output × Except RawError Unit :=
  if s.client = false then
    (s, [], Except.error { message := "Client not initialized", code := none })
  else if ¬(s.state = AgoraServiceState.READY ∨ s.state = AgoraServiceState.PUBLISHED) then
    (s, [], Except.error
      { message := "Cannot publish audio in state: " ++ stateName s.state, code := none })
  else
    match s.tracks.audioTrack with
    | some t =>
      ({ s with tracks := { s.tracks with audioTrack := some { t with enabled := true } } },
       [], Except.ok ())
    | none =>
      match micResult with
      | Except.error raw =>
        (s, [Output.errorEmitted (classifyError raw)], Except.error raw)
      | Except.ok tid =>
        let s₁ := { s with tracks :=
          { s.tracks with audioTrack := some { trackId := tid, enabled := true } } }
        match publishResult with
        | Except.ok _ =>
          (s₁, [Output.transportPublish false tid], Except.ok ())
        | Except.error raw =>
          (s₁, [Output.transportPublish false tid, Output.errorEmitted (classifyError raw)],
           Except.error raw)

/-- `AgoraService.doUnpublishVideo`: no-op without a handle or client;
unpublishes, then stops and clears the handle even when the transport call
fails (only the success path transitions PUBLISHED back to READY). -/
def doUnpublishVideo (s : AgoraService) (unpublishResult : Except RawError Unit) :
    AgoraService × List Output :=
  match s.tracks.videoTrack with
  | none => (s, [])
  | some _ =>
    if s.client = false then (s, [])
    else
      match unpublishResult with
      | Except.ok _ =>
        let s₁ := { s with tracks := { s.tracks with videoTrack := none } }
        if s₁.state = AgoraServiceState.PUBLISHED then
          let r := transitionTo s₁ AgoraServiceState.READY none
          (r.1, [Output.transportUnpublish true] ++ r.2.1)
        else (s₁, [Output.transportUnpublish true])
      | Except.error _ =>
        ({ s with tracks := { s.tracks with videoTrack := none } },
         [Output.transportUnpublish true])

/-- `AgoraService.doUnpublishAudio`: no-op without a handle or client; the
handle is stopped and cleared whether the transport call succeeds or fails. -/
def doUnpublishAudio (s : AgoraService) (unpublishResult : Except RawError Unit) :
    AgoraService × List Output :=
  match s.tracks.audioTrack with
  | none => (s, [])
  | some _ =>
    if s.client = false then (s, [])
    else
      match unpublishResult with
      | Except.ok _ =>
        ({ s with tracks := { s.tracks with audioTrack := none } },
         [Output.transportUnpublish false])
      | Except.error _ =>
        ({ s with tracks := { s.tracks with audioTrack := none } },
         [Output.transportUnpublish false])

/-- `AgoraService.executeOperation`: dispatch on the operation tag (unknown
tags are logged and succeed).  The `attempt` output records the execution and
the state it ran in. -/
def executeOperation (s : AgoraService) (op : QueuedOperation) (e : IterOracle) :
    AgoraService × List Output × Except RawError Unit :=
  let r :=
    match op.type with
    | OperationType.PUBLISH_VIDEO => doPublishVideo s op.payload e.newTrackId e.publishResult
    | OperationType.PUBLISH_AUDIO => doPublishAudio s e.micResult e.publishResult
    | OperationType.UNPUBLISH_VIDEO =>
      let u := doUnpublishVideo s e.unpublishResult
      (u.1, u.2, Except.ok ())
    | OperationType.UNPUBLISH_AUDIO =>
      let u := doUnpublishAudio s e.unpublishResult
      (u.1, u.2, Except.ok ())
    | _ => (s, [], Except.ok ())
  (r.1, Output.attempt op s.state :: r.2.1, r.2.2)

/-- One iteration of the drain loop body of `processOperationQueue`: shift the
head operation, execute it; on failure classify, and either bump the retry
counter and unshift the operation back to the head (recoverable, counter
below 3) or emit the error and drop it. -/
def drainStep (s : AgoraService) (e : IterOracle) : AgoraService × List Output :=
  match s.operationQueue with
  | [] => (s, [])
  | op :: rest =>
    let r := executeOperation { s with operationQueue := rest } op e
    match r.2.2 with
    | Except.ok _ => (r.1, r.2.1)
    | Except.error raw =>
      let se := classifyError raw
      if se.recoverable = true ∧ op.retryCount < 3 then
        ({ r.1 with operationQueue :=
            { op with retryCount := op.retryCount + 1 } :: r.1.operationQueue },
         r.2.1)
      else
        (r.1, r.2.1 ++ [Output.errorEmitted se])

/-- The `while (this.operationQueue.length > 0)` loop of
`processOperationQueue`.  The loop re-checks only queue emptiness; one oracle
entry is consumed per iteration, so the recursion is on the oracle list (a run
that exhausts its oracle stops early, which only truncates behaviours). -/
def drainLoop : AgoraService → List IterOracle → AgoraService × List Output
  | s, [] => (s, [])
  | s, e :: env =>
    if s.operationQueue.isEmpty then (s, [])
    else
      let r := drainStep s e
      let r' := drainLoop r.1 env
      (r'.1, r.2 ++ r'.2)

/-- `AgoraService.processOperationQueue`: returns immediately when a drain is
already in flight, the queue is empty, or the state is not READY/PUBLISHED;
otherwise sets the in-flight flag, runs the loop, and clears the flag.  The
READY/PUBLISHED guard is checked only here, before the loop. -/
def processOperationQueue (s : AgoraService) (env : List IterOracle) :
    AgoraService × List Output :=
  if s.isProcessingQueue = true ∨ s.operationQueue.isEmpty = true then (s, [])
  else if ¬(s.state = AgoraServiceState.READY ∨ s.state = AgoraServiceState.PUBLISHED) then
    (s, [])
  else
    let r := drainLoop { s with isProcessingQueue := true } env
    ({ r.1 with isProcessingQueue := false }, r.2)

/-- `AgoraService.queueOperation`: append to the tail, then attempt a drain if
the state allows it. -/
def queueOperation (s : AgoraService) (op : QueuedOperation) (env : List IterOracle) :
    AgoraService × List Output :=
  let s₁ := { s with operationQueue := s.operationQueue ++ [op] }
  if s₁.state = AgoraServiceState.READY ∨ s₁.state = AgoraServiceState.PUBLISHED then
    processOperationQueue s₁ env
  else (s₁, [])

/-- An environment step applied at the top of a drain-loop iteration in the
interleaving drain model: `some st` means an event handler ran during the
previous awaited operation and left the connection state at `st`. -/
def applyAsyncState (s : AgoraService) : Option AgoraServiceState → AgoraService
  | none => s
  | some st => { s with state := st }

/-- The drain loop with environment interleaving: before each iteration the
environment may have changed the connection state (a transport event handler
firing during the `await` of the previous operation).  The loop body is
`drainStep`, unchanged: the source loop never re-checks the state. -/
def drainLoopI : AgoraService → List (Option AgoraServiceState × IterOracle) →
    AgoraService × List Output
  | s, [] => (s, [])
  | s, (j, e) :: env =>
    let s₀ := applyAsyncState s j
    if s₀.operationQueue.isEmpty then (s₀, [])
    else
      let r := drainStep s₀ e
      let r' := drainLoopI r.1 env
      (r'.1, r.2 ++ r'.2)

/-- `processOperationQueue` over the interleaving drain model: the entry
guards are those of the source, checked once. -/
def processOperationQueueI (s : AgoraService)
    (env : List (Option AgoraServiceState × IterOracle)) : AgoraService × List Output :=
  if s.isProcessingQueue = true ∨ s.operationQueue.isEmpty = true then (s, [])
  else if ¬(s.state = AgoraServiceState.READY ∨ s.state = AgoraServiceState.PUBLISHED) then
    (s, [])
  else
    let r := drainLoopI { s with isProcessingQueue := true } env
    ({ r.1 with isProcessingQueue := false }, r.2)

/-- `AgoraService.setAudioEnabled`: direct toggle of an existing audio handle;
silently does nothing without one. -/
def setAudioEnabled (s : AgoraService) (enabled : Bool) : AgoraService × List Output :=
  match s.tracks.audioTrack with
  | none => (s, [])
  | some t =>
    ({ s with tracks := { s.tracks with audioTrack := some { t with enabled := enabled } } },
     [])

/-- `AgoraService.setVideoEnabled`: direct toggle of an existing video handle;
silently does nothing without one. -/
def setVideoEnabled (s : AgoraService) (enabled : Bool) : AgoraService × List Output :=
  match s.tracks.videoTrack with
  | none => (s, [])
  | some t =>
    ({ s with tracks := { s.tracks with videoTrack := some { t with enabled := enabled } } },
     [])

/-- `AgoraService.createClient`: no-op when a client exists; throws when the
app id is missing; otherwise creates the client (and attaches listeners). -/
def createClient (s : AgoraService) : AgoraService × Except RawError Unit :=
  if s.client = true then (s, Except.ok ())
  else if s.config.appId = "" then
    (s, Except.error { message := "Agora App ID is required", code := none })
  else ({ s with client := true }, Except.ok ())

/-- `AgoraService.joinChannel`: throws without a client; transitions to
JOINING, then awaits `client.join` (its result is the oracle); on failure it
classifies, transitions to ERROR and rethrows.  A successful join does not
transition further: READY waits for the transport CONNECTED event. -/
def joinChannel (s : AgoraService) (joinResult : Except RawError Unit) :
    AgoraService × List Output × Except RawError Unit :=
  if s.client = false then
    (s, [], Except.error { message := "Client not initialized", code := none })
  else
    let r₁ := transitionTo s AgoraServiceState.JOINING none
    match joinResult with
    | Except.ok _ => (r₁.1, r₁.2.1, Except.ok ())
    | Except.error raw =>
      let se := classifyError raw
      let r₂ := transitionTo r₁.1 AgoraServiceState.ERROR (some se)
      (r₂.1, r₁.2.1 ++ r₂.2.1, Except.error raw)

/-- Oracle for the transport calls `leave` awaits. -/
structure LeaveOracle where
  unpubVideoResult : Except RawError Unit := Except.ok ()
  unpubAudioResult : Except RawError Unit := Except.ok ()
deriving DecidableEq

/-- The two guarded unpublish awaits inside `AgoraService.leave`:
`if (this.tracks.videoTrack) await this.doUnpublishVideo();` followed by the
same for audio. -/
def leaveUnpublish (x : AgoraService) (lo : LeaveOracle) : AgoraService × List Output :=
  let r₂ := if x.tracks.videoTrack.isSome then doUnpublishVideo x lo.unpubVideoResult
            else (x, [])
  let r₃ := if r₂.1.tracks.audioTrack.isSome then doUnpublishAudio r₂.1 lo.unpubAudioResult
            else (r₂.1, [])
  (r₃.1, r₂.2 ++ r₃.2)

/-- `AgoraService.leave`: clear the reconnection timer, clear the queue and
the in-flight flag, best-effort unpublish both handles, detach listeners,
leave the channel (failure swallowed), null out client, tracks, session
identity and reconnection memory, reset the attempt counter, and transition to
IDLE. -/
def leaveService (s : AgoraService) (lo : LeaveOracle) : AgoraService × List Output :=
  let s₁ := { s with reconnectTimer := none, operationQueue := ([] : List QueuedOperation),
                     isProcessingQueue := false }
  let ru := leaveUnpublish s₁ lo
  let s₄ := { ru.1 with client := false, tracks := {}, currentUid := none,
                        currentRoomCode := none, pendingReconnect := none,
                        reconnectAttempts := 0 }
  let r₅ := transitionTo s₄ AgoraServiceState.IDLE none
  (r₅.1, ru.2 ++ r₅.2.1)

/-- `AgoraService.destroy`: `leave()` plus clearing the subscriber registries
(subscriber sets are not part of the service record, so this coincides with
`leave`). -/
def destroyService (s : AgoraService) (lo : LeaveOracle) : AgoraService × List Output :=
  leaveService s lo

/-- The connect phase of `AgoraService.initialize`: transition to
INITIALIZING, create the client and join.  Failures are classified, move the
state to ERROR and are emitted. -/
def initSessionConnect (x : AgoraService) (joinResult : Except RawError Unit) :
    AgoraService × List Output :=
  let r₃ := transitionTo x AgoraServiceState.INITIALIZING none
  let rc := createClient r₃.1
  match rc.2 with
  | Except.error raw =>
    let se := classifyError raw
    let r₄ := transitionTo rc.1 AgoraServiceState.ERROR (some se)
    (r₄.1, r₃.2.1 ++ r₄.2.1 ++ [Output.errorEmitted se])
  | Except.ok _ =>
    let rj := joinChannel rc.1 joinResult
    match rj.2.2 with
    | Except.ok _ => (rj.1, r₃.2.1 ++ rj.2.1)
    | Except.error raw =>
      let se := classifyError raw
      let r₄ := transitionTo rj.1 AgoraServiceState.ERROR (some se)
      (r₄.1, r₃.2.1 ++ rj.2.1 ++ r₄.2.1 ++ [Output.errorEmitted se])

/-- `AgoraService.initialize` (named `initSession` here): early return when
the same session identity is already active or in progress; tear down first
when in a state other than IDLE/ERROR; then record the identity and run the
connect phase. -/
def initSession (s : AgoraService) (uid room : String)
    (joinResult : Except RawError Unit) (lo : LeaveOracle) : AgoraService × List Output :=
  if s.currentUid = some uid ∧ s.currentRoomCode = some room ∧
      (s.state = AgoraServiceState.READY ∨ s.state = AgoraServiceState.PUBLISHED ∨
       s.state = AgoraServiceState.JOINING ∨ s.state = AgoraServiceState.INITIALIZING) then
    (s, [])
  else
    let r₁ := if s.state ≠ AgoraServiceState.IDLE ∧ s.state ≠ AgoraServiceState.ERROR then
                leaveService s lo
              else (s, [])
    let s₂ := { r₁.1 with currentUid := some uid, currentRoomCode := some room }
    let rt := initSessionConnect s₂ joinResult
    (rt.1, r₁.2 ++ rt.2)

/-- `AgoraService.startReconnection`: no-op without reconnection memory; when
attempts are exhausted, transition to ERROR and clear the memory; otherwise
bump the attempt counter, compute the capped exponential delay, transition to
RECONNECTING, notify reconnection subscribers, and schedule the timer. -/
def startReconnection (s : AgoraService) : AgoraService × List Output :=
  match s.pendingReconnect with
  | none => (s, [])
  | some _ =>
    if s.config.maxReconnectAttempts ≤ s.reconnectAttempts then
      let r := transitionTo s AgoraServiceState.ERROR none
      ({ r.1 with pendingReconnect := none }, r.2.1)
    else
      let attempts := s.reconnectAttempts + 1
      let delay := min (s.config.reconnectBackoffBase * 2 ^ (attempts - 1))
                       s.config.reconnectBackoffMax
      let s₁ := { s with reconnectAttempts := attempts }
      let r := transitionTo s₁ AgoraServiceState.RECONNECTING none
      ({ r.1 with reconnectTimer := some delay },
       r.2.1 ++ [Output.reconnection attempts s.config.maxReconnectAttempts delay])

/-- `AgoraService.handleDisconnection`: with a held session identity, remember
it and start reconnection; otherwise transition to ERROR. -/
def handleDisconnection (s : AgoraService) : AgoraService × List Output :=
  match s.currentUid, s.currentRoomCode with
  | some uid, some room =>
    startReconnection { s with pendingReconnect := some (uid, room) }
  | _, _ =>
    let r := transitionTo s AgoraServiceState.ERROR none
    (r.1, r.2.1)

/-- The rejoin part of the reconnection timer callback: rejoin using the
remembered identity, and on success re-submit a PUBLISH_AUDIO operation if an
audio handle existed (the queued drain attempt does not run: the state is
JOINING).  A rejoin failure is caught and `startReconnection` schedules the
next attempt. -/
def timerRejoin (y : AgoraService) (joinResult : Except RawError Unit) :
    AgoraService × List Output :=
  let rj := joinChannel y joinResult
  match rj.2.2 with
  | Except.error _ =>
    let r := startReconnection rj.1
    (r.1, rj.2.1 ++ r.2)
  | Except.ok _ =>
    if rj.1.tracks.audioTrack.isSome then
      let r := queueOperation rj.1 { type := OperationType.PUBLISH_AUDIO } []
      (r.1, rj.2.1 ++ r.2)
    else (rj.1, rj.2.1)

/-- The reconnection timer callback: recreate the client if needed (a missing
reconnection memory faults before the join and lands in the catch, where
`startReconnection` returns at once), then rejoin.  Firing consumes the
pending timer. -/
def timerFire (s : AgoraService) (joinResult : Except RawError Unit) :
    AgoraService × List Output :=
  match s.reconnectTimer with
  | none => (s, [])
  | some _ =>
    let s₀ := { s with reconnectTimer := none }
    let rc := if s₀.client = true then (s₀, Except.ok ()) else createClient s₀
    match rc.2 with
    | Except.error _ => startReconnection rc.1
    | Except.ok _ =>
      match rc.1.pendingReconnect with
      | none => startReconnection rc.1
      | some _ => timerRejoin rc.1 joinResult

/-- Transport connection-state events consumed by the handler the service
attaches in `setupEventListeners` (the handler reacts to exactly these
three). -/
inductive TransportEvent where
  | CONNECTED
  | DISCONNECTED
  | RECONNECTING
deriving DecidableEq

/-- The `connection-state-change` handler: CONNECTED promotes JOINING to READY
(draining the queue) and resets the attempt counter; DISCONNECTED outside
IDLE/ERROR starts disconnection handling; a transport RECONNECTING signal
moves any other state to RECONNECTING.  The handler exists only while a client
exists. -/
def onConnectionEvent (s : AgoraService) (ev : TransportEvent) (env : List IterOracle) :
    AgoraService × List Output :=
  if s.client = false then (s, [])
  else
    match ev with
    | TransportEvent.CONNECTED =>
      if s.state = AgoraServiceState.JOINING then
        let r := transitionTo s AgoraServiceState.READY none
        let rq := processOperationQueue r.1 env
        ({ rq.1 with reconnectAttempts := 0 }, r.2.1 ++ rq.2)
      else ({ s with reconnectAttempts := 0 }, [])
    | TransportEvent.DISCONNECTED =>
      if s.state ≠ AgoraServiceState.IDLE ∧ s.state ≠ AgoraServiceState.ERROR then
        handleDisconnection s
      else (s, [])
    | TransportEvent.RECONNECTING =>
      if s.state ≠ AgoraServiceState.RECONNECTING then
        let r := transitionTo s AgoraServiceState.RECONNECTING none
        (r.1, r.2.1)
      else (s, [])

/-- `AgoraService.publishVideo`: extract the video track from the stream (warn
and return when there is none) and enqueue a PUBLISH_VIDEO operation. -/
def publishVideo (s : AgoraService) (hasVideoTrack : Bool) (trackId : Nat)
    (env : List IterOracle) : AgoraService × List Output :=
  if hasVideoTrack = false then (s, [])
  else queueOperation s { type := OperationType.PUBLISH_VIDEO, payload := some trackId } env

/-- `AgoraService.publishAudio`: enqueue a PUBLISH_AUDIO operation. -/
def publishAudio (s : AgoraService) (env : List IterOracle) : AgoraService × List Output :=
  queueOperation s { type := OperationType.PUBLISH_AUDIO } env

/-- `AgoraService.unpublishVideo`: enqueue an UNPUBLISH_VIDEO operation. -/
def unpublishVideo (s : AgoraService) (env : List IterOracle) : AgoraService × List Output :=
  queueOperation s { type := OperationType.UNPUBLISH_VIDEO } env

/-- `AgoraService.unpublishAudio`: enqueue an UNPUBLISH_AUDIO operation. -/
def unpublishAudio (s : AgoraService) (env : List IterOracle) : AgoraService × List Output :=
  queueOperation s { type := OperationType.UNPUBLISH_AUDIO } env

/-- One atomic step of the service: a public facade call or a transport event,
with the oracles resolving the external calls it awaits.  Pure reads
(`getState`, `getTracks`) and subscription management have no effect on the
service record and are omitted; the remote-user and exception transport events
never change the record either. -/
inductive Command where
  | initCmd (uid room : String) (joinResult : Except RawError Unit) (lo : LeaveOracle)
  | connEvent (ev : TransportEvent) (env : List IterOracle)
  | timerCmd (joinResult : Except RawError Unit)
  | pubVideo (hasVideoTrack : Bool) (trackId : Nat) (env : List IterOracle)
  | pubAudio (env : List IterOracle)
  | unpubVideo (env : List IterOracle)
  | unpubAudio (env : List IterOracle)
  | setAudio (enabled : Bool)
  | setVideo (enabled : Bool)
  | leaveCmd (lo : LeaveOracle)
  | destroyCmd (lo : LeaveOracle)
deriving DecidableEq

/-- Interpret one command. -/
def step (s : AgoraService) : Command → AgoraService × List Output
  | Command.initCmd uid room jr lo => initSession s uid room jr lo
  | Command.connEvent ev env => onConnectionEvent s ev env
  | Command.timerCmd jr => timerFire s jr
  | Command.pubVideo h tid env => publishVideo s h tid env
  | Command.pubAudio env => publishAudio s env
  | Command.unpubVideo env => unpublishVideo s env
  | Command.unpubAudio env => unpublishAudio s env
  | Command.setAudio b => setAudioEnabled s b
  | Command.setVideo b => setVideoEnabled s b
  | Command.leaveCmd lo => leaveService s lo
  | Command.destroyCmd lo => destroyService s lo

/-- Interpret a command sequence, collecting all outputs. -/
def run (s : AgoraService) : List Command → AgoraService × List Output
  | [] => (s, [])
  | c :: cs =>
    let r := step s c
    let r' := run r.1 cs
    (r'.1, r.2 ++ r'.2)

/-- The legal transition graph of spec section 4.1, as the claim states it:
IDLE→INITIALIZING, INITIALIZING→JOINING, JOINING→READY, READY→PUBLISHING,
PUBLISHING→PUBLISHED, PUBLISHED-or-READY→RECONNECTING, RECONNECTING→READY,
any non-terminal state→ERROR, any state→IDLE. -/
def legalEdge : AgoraServiceState → AgoraServiceState → Bool
  | _, AgoraServiceState.IDLE => true
  | AgoraServiceState.IDLE, AgoraServiceState.INITIALIZING => true
  | AgoraServiceState.INITIALIZING, AgoraServiceState.JOINING => true
  | AgoraServiceState.JOINING, AgoraServiceState.READY => true
  | AgoraServiceState.READY, AgoraServiceState.PUBLISHING => true
  | AgoraServiceState.PUBLISHING, AgoraServiceState.PUBLISHED => true
  | AgoraServiceState.PUBLISHED, AgoraServiceState.RECONNECTING => true
  | AgoraServiceState.READY, AgoraServiceState.RECONNECTING => true
  | AgoraServiceState.RECONNECTING, AgoraServiceState.READY => true
  | p, AgoraServiceState.ERROR =>
    !(p = AgoraServiceState.IDLE) && !(p = AgoraServiceState.ERROR)
  | _, _ => false

/-- The additional edges the implementation actually produces, beyond the
graph of section 4.1. -/
def extraEdge : AgoraServiceState → AgoraServiceState → Bool
  | AgoraServiceState.ERROR, AgoraServiceState.INITIALIZING => true
  | AgoraServiceState.RECONNECTING, AgoraServiceState.JOINING => true
  | AgoraServiceState.ERROR, AgoraServiceState.RECONNECTING => true
  | AgoraServiceState.JOINING, AgoraServiceState.RECONNECTING => true
  | AgoraServiceState.PUBLISHING, AgoraServiceState.READY => true
  | AgoraServiceState.PUBLISHED, AgoraServiceState.READY => true
  | AgoraServiceState.PUBLISHED, AgoraServiceState.PUBLISHING => true
  | _, _ => false

/-- The amended transition graph: section 4.1 plus the code-forced edges. -/
def legalEdgeA (p n : AgoraServiceState) : Bool :=
  legalEdge p n || extraEdge p n

/-- Every state-change notification in the output list is an edge of the given
graph. -/
def outputsLegal (edge : AgoraServiceState → AgoraServiceState → Bool)
    (l : List Output) : Bool :=
  l.all fun o =>
    match o with
    | Output.stateChange p n _ => edge p n
    | _ => true

/-- The states a service can rest in between atomic commands (INITIALIZING,
PUBLISHING and JOINED are only ever transient inside a command). -/
def atRestState : AgoraServiceState → Bool
  | AgoraServiceState.IDLE => true
  | AgoraServiceState.JOINING => true
  | AgoraServiceState.READY => true
  | AgoraServiceState.PUBLISHED => true
  | AgoraServiceState.RECONNECTING => true
  | AgoraServiceState.ERROR => true
  | _ => false

/-- Reachability invariant of the interpreter, maintained by every command. -/
def Inv (s : AgoraService) : Prop :=
  atRestState s.state = true ∧
  (s.state = AgoraServiceState.IDLE →
    s.client = false ∧ s.pendingReconnect = none ∧ s.reconnectTimer = none) ∧
  (s.reconnectTimer ≠ none →
    s.state = AgoraServiceState.RECONNECTING ∨ s.pendingReconnect = none) ∧
  (s.state = AgoraServiceState.ERROR → s.pendingReconnect = none) ∧
  (s.state ≠ AgoraServiceState.IDLE →
    s.currentUid ≠ none ∧ s.currentRoomCode ≠ none)

/-- Run of `onStateChange` subscriber callbacks inside `transitionTo`: each
callback is invoked inside try/catch (`true` records normal completion,
`false` a thrown-and-caught exception); the iteration continues either way. -/
def runStateChangeCallbacks (cbs : List (StateChangeEvent → Except String Unit))
    (event : StateChangeEvent) : List Bool :=
  cbs.map fun callback =>
    match callback event with
    | Except.ok _ => true
    | Except.error _ => false

/-- `transitionTo` with the subscriber callback list explicit: returns the new
service, the per-callback completion record, and the drain-trigger flag. -/
def transitionToWith (cbs : List (StateChangeEvent → Except String Unit))
    (s : AgoraService) (newState : AgoraServiceState) (error : Option ServiceError) :
    AgoraService × List Bool × Bool :=
  if s.state = newState then (s, [], false)
  else
    ({ s with state := newState },
     runStateChangeCallbacks cbs
       { previousState := s.state, newState := newState, error := error },
     decide (newState = AgoraServiceState.READY))

/-- `AgoraService.emitError` with the error callback list explicit: every
callback is invoked inside try/catch. -/
def emitErrorWith (cbs : List (ServiceError → Except String Unit))
    (error : ServiceError) : List Bool :=
  cbs.map fun callback =>
    match callback error with
    | Except.ok _ => true
    | Except.error _ => false

/-- Number of operation executions recorded in an output list. -/
def countAttempts (l : List Output) : Nat :=
  l.countP fun o =>
    match o with
    | Output.attempt _ _ => true
    | _ => false

/-- Concrete trace refuting the claimed transition graph: with no app id
configured, a first `initialize` fails (IDLE→INITIALIZING→ERROR) and a second
`initialize` for the same session then emits ERROR→INITIALIZING. -/
def c1Commands : List Command :=
  [Command.initCmd "u" "r" (Except.ok ()) {},
   Command.initCmd "u" "r" (Except.ok ()) {}]

/-- First queued operation of the mid-drain scenario (an audio unpublish with
no handle present executes as a no-op in any state). -/
def c2op1 : QueuedOperation :=
  { type := OperationType.UNPUBLISH_AUDIO, timestamp := 0 }

/-- Second queued operation of the mid-drain scenario. -/
def c2op2 : QueuedOperation :=
  { type := OperationType.UNPUBLISH_AUDIO, timestamp := 1 }

/-- Service about to drain two queued operations from READY. -/
def c2Service : AgoraService :=
  { state := AgoraServiceState.READY
    client := true
    operationQueue := [c2op1, c2op2] }

/-- Environment: during the first awaited operation a transport event handler
moves the state to RECONNECTING. -/
def c2Env : List (Option AgoraServiceState × IterOracle) :=
  [(none, {}), (some AgoraServiceState.RECONNECTING, {})]

/-- A freshly enqueued audio publish operation (retry counter unset). -/
def retryOp : QueuedOperation :=
  { type := OperationType.PUBLISH_AUDIO }

/-- Service about to drain a single audio publish from READY. -/
def retryService : AgoraService :=
  { state := AgoraServiceState.READY
    client := true
    operationQueue := [retryOp] }

/-- Environment in which every microphone acquisition fails with `raw`. -/
def retryEnv (raw : RawError) : List IterOracle :=
  List.replicate 4 { micResult := Except.error raw }

/-- A service with a queued operation but in a non-drainable state. -/
def c2Blocked : AgoraService :=
  { state := AgoraServiceState.RECONNECTING
    operationQueue := [c2op1] }

/-- A reconnecting session with default numeric configuration, about to
schedule its first attempt. -/
def c4Service : AgoraService :=
  { config := DEFAULT_CONFIG "app"
    state := AgoraServiceState.READY
    client := true
    pendingReconnect := some ("u", "r")
    currentUid := some "u"
    currentRoomCode := some "r" }

/-- A published session holding a disabled video handle. -/
def c6Service : AgoraService :=
  { state := AgoraServiceState.PUBLISHED
    client := true
    tracks := { videoTrack := some { trackId := 3, enabled := false } } }

lemma transitionTo_fst (s : AgoraService) (ns : AgoraServiceState)
    (err : Option ServiceError) : (transitionTo s ns err).1 = { s with state := ns } := by
  unfold transitionTo
  split
  · next h => rw [← h]
  · rfl

lemma transitionTo_out (s : AgoraService) (ns : AgoraServiceState)
    (err : Option ServiceError) :
    (transitionTo s ns err).2.1 =
      if s.state = ns then [] else [Output.stateChange s.state ns err] := by
  unfold transitionTo
  split <;> simp_all

lemma outputsLegal_append (E : AgoraServiceState → AgoraServiceState → Bool)
    (a b : List Output) :
    outputsLegal E (a ++ b) = (outputsLegal E a && outputsLegal E b) := by
  simp [outputsLegal, List.all_append]

lemma outputsLegal_cons_attempt (E : AgoraServiceState → AgoraServiceState → Bool)
    (op : QueuedOperation) (st : AgoraServiceState) (l : List Output) :
    outputsLegal E (Output.attempt op st :: l) = outputsLegal E l := by
  simp [outputsLegal]

lemma outputsLegal_transitionTo (s : AgoraService) (ns : AgoraServiceState)
    (err : Option ServiceError) (h : s.state = ns ∨ legalEdgeA s.state ns = true) :
    outputsLegal legalEdgeA (transitionTo s ns err).2.1 = true := by
  rw [transitionTo_out]
  rcases h with h | h
  · simp [h, outputsLegal]
  · split <;> simp [outputsLegal, h]

/-- A drain request issued while a drain is already in flight returns
immediately, leaving the service unchanged (the `isProcessingQueue` guard). -/
lemma processOperationQueue_inFlight (s : AgoraService) (env : List IterOracle)
    (h : s.isProcessingQueue = true) : processOperationQueue s env = (s, []) := by
  unfold processOperationQueue
  simp [h]

/-- Claim C7: `classifyError` is a pure total function satisfying the ordered
classification clauses: network/connection/timeout indicators (or code
NETWORK_ERROR) give NETWORK recoverable; otherwise permission indicators give
PERMISSION non-recoverable; otherwise the two SDK codes give SDK recoverable;
every other input gives UNKNOWN recoverable. -/
theorem classifyError_matches_taxonomy (e : RawError) :
    (networkIndicated e = true →
      classifyError e =
        { type := ErrorType.NETWORK, message := e.message, code := e.code,
          recoverable := true }) ∧
    (networkIndicated e = false → permissionIndicated e = true →
      classifyError e =
        { type := ErrorType.PERMISSION, message := e.message, code := e.code,
          recoverable := false }) ∧
    (networkIndicated e = false → permissionIndicated e = false →
      sdkIndicated e = true →
      classifyError e =
        { type := ErrorType.SDK, message := e.message, code := e.code,
          recoverable := true }) ∧
    (networkIndicated e = false → permissionIndicated e = false →
      sdkIndicated e = false →
      classifyError e =
        { type := ErrorType.UNKNOWN, message := e.message, code := e.code,
          recoverable := true }) := by
  unfold classifyError networkIndicated permissionIndicated sdkIndicated
  refine ⟨fun h1 => ?_, fun h1 h2 => ?_, fun h1 h2 h3 => ?_, fun h1 h2 h3 => ?_⟩ <;>
    simp_all

/-- Witness for C7: each clause applied at a concrete raw failure. -/
theorem classifyError_matches_taxonomy_witness :
    classifyError { message := "connection timeout", code := none } =
      { type := ErrorType.NETWORK, message := "connection timeout", code := none,
        recoverable := true } ∧
    classifyError { message := "camera access denied", code := none } =
      { type := ErrorType.PERMISSION, message := "camera access denied", code := none,
        recoverable := false } ∧
    classifyError { message := "cannot publish, have not joined yet",
                    code := some "INVALID_OPERATION" } =
      { type := ErrorType.SDK, message := "cannot publish, have not joined yet",
        code := some "INVALID_OPERATION", recoverable := true } ∧
    classifyError { message := "boom", code := some "WEIRD" } =
      { type := ErrorType.UNKNOWN, message := "boom", code := some "WEIRD",
        recoverable := true } :=
  ⟨(classifyError_matches_taxonomy _).1 (by decide),
   (classifyError_matches_taxonomy _).2.1 (by decide) (by decide),
   (classifyError_matches_taxonomy _).2.2.1 (by decide) (by decide) (by decide),
   (classifyError_matches_taxonomy _).2.2.2 (by decide) (by decide) (by decide)⟩

/-- Claim C8: `transitionTo` with the current state is a complete no-op (the
service record is unchanged, no subscriber is notified — also in the
callback-explicit model — and no drain is requested), and `transitionTo`
requests a queue drain exactly when the state actually changes to READY. -/
theorem transitionTo_selfLoop_noop (s : AgoraService) (ns : AgoraServiceState)
    (err : Option ServiceError) (cbs : List (StateChangeEvent → Except String Unit)) :
    (ns = s.state →
      transitionTo s ns err = (s, [], false) ∧
      transitionToWith cbs s ns err = (s, [], false)) ∧
    ((transitionTo s ns err).2.2 = true ↔
      (s.state ≠ ns ∧ ns = AgoraServiceState.READY)) := by
  constructor
  · intro h
    constructor
    · unfold transitionTo
      simp [h]
    · unfold transitionToWith
      simp [h]
  · unfold transitionTo
    split
    · next h => simp [h]
    · next h => simp [h]

/-- Witness for C8 at a concrete service and state. -/
theorem transitionTo_selfLoop_noop_witness :
    transitionTo (mkService (DEFAULT_CONFIG "app")) AgoraServiceState.IDLE none =
      (mkService (DEFAULT_CONFIG "app"), [], false) :=
  ((transitionTo_selfLoop_noop (mkService (DEFAULT_CONFIG "app"))
    AgoraServiceState.IDLE none []).1 (by decide)).1

/-- Claim C9: a subscriber callback that throws is caught: on a real state
change the new state is still recorded, every registered state-change
callback is still invoked (the completion record has one entry per
registered callback, whatever each one returns), the drain is still requested
exactly for transitions to READY, and every error callback is likewise always
invoked by `emitError`. -/
theorem callback_exceptions_isolated (cbs : List (StateChangeEvent → Except String Unit))
    (s : AgoraService) (ns : AgoraServiceState) (err : Option ServiceError)
    (ecbs : List (ServiceError → Except String Unit)) (e : ServiceError)
    (h : s.state ≠ ns) :
    (transitionToWith cbs s ns err).1 = { s with state := ns } ∧
    (transitionToWith cbs s ns err).2.1.length = cbs.length ∧
    ((transitionToWith cbs s ns err).2.2 = true ↔ ns = AgoraServiceState.READY) ∧
    (emitErrorWith ecbs e).length = ecbs.length := by
  unfold transitionToWith
  rw [if_neg h]
  refine ⟨rfl, ?_, by simp, ?_⟩
  · simp [runStateChangeCallbacks]
  · simp [emitErrorWith]

/-- Witness for C9: one throwing and one normal callback on each channel; both
are invoked, the transition to READY goes through and requests the drain. -/
theorem callback_exceptions_isolated_witness :
    (transitionToWith [fun _ => Except.error "subscriber threw", fun _ => Except.ok ()]
        { mkService (DEFAULT_CONFIG "app") with state := AgoraServiceState.JOINING }
        AgoraServiceState.READY none).1 =
      { mkService (DEFAULT_CONFIG "app") with state := AgoraServiceState.READY } ∧
    (transitionToWith [fun _ => Except.error "subscriber threw", fun _ => Except.ok ()]
        { mkService (DEFAULT_CONFIG "app") with state := AgoraServiceState.JOINING }
        AgoraServiceState.READY none).2.1.length = 2 ∧
    ((transitionToWith [fun _ => Except.error "subscriber threw", fun _ => Except.ok ()]
        { mkService (DEFAULT_CONFIG "app") with state := AgoraServiceState.JOINING }
        AgoraServiceState.READY none).2.2 = true ↔
      AgoraServiceState.READY = AgoraServiceState.READY) ∧
    (emitErrorWith [fun _ => Except.error "error subscriber threw"]
      { type := ErrorType.UNKNOWN, message := "boom", code := none,
        recoverable := true }).length = 1 :=
  callback_exceptions_isolated _ _ _ _ _ _ (by decide)

/-- Claim C10: toggling audio enablement with no audio handle, or video
enablement with no video handle, is a complete no-op: the service record is
returned unchanged and nothing is emitted, enqueued or thrown. -/
theorem setEnabled_without_handle_noop (s : AgoraService) (b : Bool) :
    (s.tracks.audioTrack = none → setAudioEnabled s b = (s, [])) ∧
    (s.tracks.videoTrack = none → setVideoEnabled s b = (s, [])) := by
  constructor
  · intro h
    unfold setAudioEnabled
    rw [h]
  · intro h
    unfold setVideoEnabled
    rw [h]

/-- Witness for C10 on a fresh service with both toggles. -/
theorem setEnabled_without_handle_noop_witness :
    setAudioEnabled (mkService (DEFAULT_CONFIG "app")) true =
      (mkService (DEFAULT_CONFIG "app"), []) ∧
    setVideoEnabled (mkService (DEFAULT_CONFIG "app")) false =
      (mkService (DEFAULT_CONFIG "app"), []) :=
  ⟨(setEnabled_without_handle_noop _ true).1 (by decide),
   (setEnabled_without_handle_noop _ false).2 (by decide)⟩

lemma legalEdgeA_toIdle (p : AgoraServiceState) :
    legalEdgeA p AgoraServiceState.IDLE = true := by
  cases p <;> rfl

lemma doUnpublishVideo_spec (s : AgoraService) (u : Except RawError Unit) :
    outputsLegal legalEdgeA (doUnpublishVideo s u).2 = true ∧
    ((doUnpublishVideo s u).1.state = s.state ∨
      (s.state = AgoraServiceState.PUBLISHED ∧
        (doUnpublishVideo s u).1.state = AgoraServiceState.READY)) ∧
    (doUnpublishVideo s u).1.operationQueue = s.operationQueue ∧
    (doUnpublishVideo s u).1.isProcessingQueue = s.isProcessingQueue ∧
    (doUnpublishVideo s u).1.reconnectTimer = s.reconnectTimer ∧
    (doUnpublishVideo s u).1.pendingReconnect = s.pendingReconnect ∧
    (doUnpublishVideo s u).1.currentUid = s.currentUid ∧
    (doUnpublishVideo s u).1.currentRoomCode = s.currentRoomCode ∧
    (doUnpublishVideo s u).1.client = s.client ∧
    (doUnpublishVideo s u).1.config = s.config ∧
    (doUnpublishVideo s u).1.reconnectAttempts = s.reconnectAttempts ∧
    (doUnpublishVideo s u).1.tracks.audioTrack = s.tracks.audioTrack := by
  unfold doUnpublishVideo
  cases hv : s.tracks.videoTrack with
  | none => simp [outputsLegal]
  | some t =>
    cases hc : s.client with
    | false => simp [outputsLegal, hc]
    | true =>
      cases u with
      | error raw => simp [outputsLegal, hc]
      | ok _ =>
        by_cases hp : s.state = AgoraServiceState.PUBLISHED
        · simp only [hp, hc, if_false, ite_true, ite_false]
          simp [transitionTo_fst, transitionTo_out, outputsLegal, hp]
          rfl
        · simp [hp, outputsLegal, hc]

lemma doUnpublishAudio_spec (s : AgoraService) (u : Except RawError Unit) :
    outputsLegal legalEdgeA (doUnpublishAudio s u).2 = true ∧
    (doUnpublishAudio s u).1.state = s.state ∧
    (doUnpublishAudio s u).1.operationQueue = s.operationQueue ∧
    (doUnpublishAudio s u).1.isProcessingQueue = s.isProcessingQueue ∧
    (doUnpublishAudio s u).1.reconnectTimer = s.reconnectTimer ∧
    (doUnpublishAudio s u).1.pendingReconnect = s.pendingReconnect ∧
    (doUnpublishAudio s u).1.currentUid = s.currentUid ∧
    (doUnpublishAudio s u).1.currentRoomCode = s.currentRoomCode ∧
    (doUnpublishAudio s u).1.client = s.client ∧
    (doUnpublishAudio s u).1.config = s.config ∧
    (doUnpublishAudio s u).1.reconnectAttempts = s.reconnectAttempts ∧
    (doUnpublishAudio s u).1.tracks.videoTrack = s.tracks.videoTrack := by
  unfold doUnpublishAudio
  cases ha : s.tracks.audioTrack with
  | none => simp [outputsLegal]
  | some t =>
    cases hc : s.client with
    | false => simp [outputsLegal, hc]
    | true => cases u <;> simp [outputsLegal, hc]

lemma leaveUnpublish_spec (x : AgoraService) (lo : LeaveOracle) :
    (leaveUnpublish x lo).1.config = x.config ∧
    (leaveUnpublish x lo).1.operationQueue = x.operationQueue ∧
    (leaveUnpublish x lo).1.isProcessingQueue = x.isProcessingQueue ∧
    (leaveUnpublish x lo).1.reconnectTimer = x.reconnectTimer ∧
    outputsLegal legalEdgeA (leaveUnpublish x lo).2 = true := by
  simp only [leaveUnpublish]
  obtain ⟨v1, v2, v3, v4, v5, v6, v7, v8, v9, v10, v11, v12⟩ :=
    doUnpublishVideo_spec x lo.unpubVideoResult
  by_cases hv : x.tracks.videoTrack.isSome = true
  · simp only [hv, if_true]
    obtain ⟨a1, a2, a3, a4, a5, a6, a7, a8, a9, a10, a11, a12⟩ :=
      doUnpublishAudio_spec (doUnpublishVideo x lo.unpubVideoResult).1 lo.unpubAudioResult
    by_cases ha : (doUnpublishVideo x lo.unpubVideoResult).1.tracks.audioTrack.isSome = true
    · simp only [ha, if_true]
      refine ⟨a10.trans v10, a3.trans v3, a4.trans v4, a5.trans v5, ?_⟩
      rw [outputsLegal_append, v1, a1]
      rfl
    · simp only [ha, if_false]
      refine ⟨v10, v3, v4, v5, ?_⟩
      rw [outputsLegal_append, v1]
      rfl
  · simp only [hv, if_false]
    by_cases ha : x.tracks.audioTrack.isSome = true
    · obtain ⟨a1, a2, a3, a4, a5, a6, a7, a8, a9, a10, a11, a12⟩ :=
        doUnpublishAudio_spec x lo.unpubAudioResult
      simp [ha, outputsLegal_append, a1, a3, a4, a5, a10]
    · simp [ha, outputsLegal]

lemma leaveService_spec (s : AgoraService) (lo : LeaveOracle) :
    (leaveService s lo).1.state = AgoraServiceState.IDLE ∧
    (leaveService s lo).1.client = false ∧
    (leaveService s lo).1.config = s.config ∧
    (leaveService s lo).1.tracks = {} ∧
    (leaveService s lo).1.operationQueue = [] ∧
    (leaveService s lo).1.isProcessingQueue = false ∧
    (leaveService s lo).1.reconnectAttempts = 0 ∧
    (leaveService s lo).1.reconnectTimer = none ∧
    (leaveService s lo).1.pendingReconnect = none ∧
    (leaveService s lo).1.currentUid = none ∧
    (leaveService s lo).1.currentRoomCode = none ∧
    outputsLegal legalEdgeA (leaveService s lo).2 = true := by
  obtain ⟨u1, u2, u3, u4, u5⟩ :=
    leaveUnpublish_spec
      { s with reconnectTimer := none, operationQueue := ([] : List QueuedOperation),
               isProcessingQueue := false } lo
  simp only [leaveService]
  rw [transitionTo_fst]
  refine ⟨rfl, rfl, u1, rfl, u2, u3, rfl, u4, rfl, rfl, rfl, ?_⟩
  rw [outputsLegal_append, u5]
  rw [outputsLegal_transitionTo _ _ _ (Or.inr (legalEdgeA_toIdle _))]
  rfl

/-- Claim C5: after `leave()` resolves — from any state, including
mid-reconnection, and whatever the transport unpublish results are — the
operation queue is empty, no audio or video track handle exists, the pending
reconnection timer and the reconnection memory are cleared, and the state is
IDLE. -/
theorem leave_resets_service (s : AgoraService) (lo : LeaveOracle) :
    (leaveService s lo).1.operationQueue = [] ∧
    (leaveService s lo).1.tracks.audioTrack = none ∧
    (leaveService s lo).1.tracks.videoTrack = none ∧
    (leaveService s lo).1.reconnectTimer = none ∧
    (leaveService s lo).1.pendingReconnect = none ∧
    (leaveService s lo).1.state = AgoraServiceState.IDLE := by
  obtain ⟨h1, h2, h3, h4, h5, h6, h7, h8, h9, h10, h11, h12⟩ := leaveService_spec s lo
  refine ⟨h5, ?_, ?_, h8, h9, h1⟩
  · rw [h4]
  · rw [h4]

/-- Claim C6: a video publish executed while a video handle already exists
performs no transport publish call and creates no second handle: the service
is unchanged except that the existing handle is re-enabled, nothing is
emitted, and the operation succeeds (`tracks.videoTrack` is a single optional
slot, so at most one outbound video handle can exist at any time). -/
theorem publishVideo_existing_handle_toggles (s : AgoraService) (payload : Option Nat)
    (tid : Nat) (pres : Except RawError Unit) (t : TrackHandle)
    (hc : s.client = true)
    (hs : s.state = AgoraServiceState.READY ∨ s.state = AgoraServiceState.PUBLISHED)
    (ht : s.tracks.videoTrack = some t) :
    doPublishVideo s payload tid pres =
      ({ s with tracks := { s.tracks with videoTrack := some { t with enabled := true } } },
       [], Except.ok ()) := by
  unfold doPublishVideo
  rcases hs with h | h <;> simp [hc, h, ht]

/-- Witness for C6: a second publish over a disabled existing handle only
re-enables it. -/
theorem publishVideo_existing_handle_toggles_witness :
    doPublishVideo c6Service (some 9) 99 (Except.ok ()) =
      ({ c6Service with tracks :=
          { c6Service.tracks with videoTrack := some { trackId := 3, enabled := true } } },
       [], Except.ok ()) :=
  publishVideo_existing_handle_toggles c6Service (some 9) 99 (Except.ok ())
    { trackId := 3, enabled := false } (by decide) (Or.inr (by decide)) (by decide)

/-- Claim C4: with base 1000 ms, cap 30000 ms and 5 maximum attempts, the
delay scheduled before reconnection attempt `n + 1` is
`min(1000 · 2^n, 30000)` — that is 1000, 2000, 4000, 8000, 16000 ms for
attempts 1 through 5 — and the `ReconnectionEvent` carrying the attempt
number, the cap and that delay is emitted when the attempt is scheduled;
once 5 attempts have been made no further timer is scheduled and no event is
emitted: the state becomes ERROR and the reconnection memory is cleared. -/
theorem reconnection_backoff_schedule (s : AgoraService) (n : Nat)
    (hmax : s.config.maxReconnectAttempts = 5)
    (hbase : s.config.reconnectBackoffBase = 1000)
    (hcap : s.config.reconnectBackoffMax = 30000)
    (hpr : s.pendingReconnect ≠ none) :
    (s.reconnectAttempts = n → n < 5 →
      (startReconnection s).1.reconnectTimer = some (min (1000 * 2 ^ n) 30000) ∧
      min (1000 * 2 ^ n) 30000 = [1000, 2000, 4000, 8000, 16000].getD n 0 ∧
      Output.reconnection (n + 1) 5 (min (1000 * 2 ^ n) 30000) ∈
        (startReconnection s).2) ∧
    (5 ≤ s.reconnectAttempts →
      (startReconnection s).1.state = AgoraServiceState.ERROR ∧
      (startReconnection s).1.pendingReconnect = none ∧
      (startReconnection s).1.reconnectTimer = s.reconnectTimer ∧
      ∀ a m d, Output.reconnection a m d ∉ (startReconnection s).2) := by
  rcases hp : s.pendingReconnect with _ | pr
  · exact absurd hp hpr
  constructor
  · intro hn hlt
    have hguard : ¬(s.config.maxReconnectAttempts ≤ s.reconnectAttempts) := by
      rw [hmax, hn]; omega
    unfold startReconnection
    rw [hp, if_neg hguard, hbase, hcap, hmax, hn]
    refine ⟨by simp, ?_, ?_⟩
    · have h5 : n = 0 ∨ n = 1 ∨ n = 2 ∨ n = 3 ∨ n = 4 := by omega
      rcases h5 with rfl | rfl | rfl | rfl | rfl <;> decide
    · simp
  · intro h5
    have hguard : s.config.maxReconnectAttempts ≤ s.reconnectAttempts := by
      rw [hmax]; omega
    unfold startReconnection
    rw [hp, if_pos hguard]
    refine ⟨by simp [transitionTo_fst], by simp, by simp [transitionTo_fst], ?_⟩
    intro a m d
    dsimp only
    rw [transitionTo_out]
    split <;> simp

/-- Witness for C4: first attempt scheduled at 1000 ms with its event; sixth
attempt refused with ERROR and cleared memory. -/
theorem reconnection_backoff_schedule_witness :
    (startReconnection c4Service).1.reconnectTimer = some (min (1000 * 2 ^ 0) 30000) ∧
    Output.reconnection 1 5 (min (1000 * 2 ^ 0) 30000) ∈ (startReconnection c4Service).2 ∧
    (startReconnection { c4Service with reconnectAttempts := 5 }).1.state =
      AgoraServiceState.ERROR ∧
    (startReconnection { c4Service with reconnectAttempts := 5 }).1.pendingReconnect =
      none :=
  ⟨((reconnection_backoff_schedule c4Service 0 rfl rfl rfl (by decide)).1 rfl
      (by decide)).1,
   ((reconnection_backoff_schedule c4Service 0 rfl rfl rfl (by decide)).1 rfl
      (by decide)).2.2,
   ((reconnection_backoff_schedule { c4Service with reconnectAttempts := 5 } 5 rfl rfl rfl
      (by decide)).2 (by decide)).1,
   ((reconnection_backoff_schedule { c4Service with reconnectAttempts := 5 } 5 rfl rfl rfl
      (by decide)).2 (by decide)).2.1⟩

lemma executeOperation_out_head (s : AgoraService) (op : QueuedOperation) (e : IterOracle) :
    ∃ tail, (executeOperation s op e).2.1 = Output.attempt op s.state :: tail := by
  unfold executeOperation
  exact ⟨_, rfl⟩

/-- Amended claim C2: the READY/PUBLISHED guard is checked only when a drain
starts — `processOperationQueue` returns immediately, changing nothing, when a
drain is already in flight or the state is not READY/PUBLISHED — but the guard
is never re-checked inside the loop: whenever the queue is non-empty, the next
iteration dequeues and executes the head operation whatever the current
connection state is, so a drain in progress continues (instead of stopping and
preserving the remaining operations) when the state changes away. -/
theorem drain_guard_checked_at_entry_only :
    (∀ (s : AgoraService) (env : List (Option AgoraServiceState × IterOracle)),
      s.isProcessingQueue = true ∨
        ¬(s.state = AgoraServiceState.READY ∨ s.state = AgoraServiceState.PUBLISHED) →
      processOperationQueueI s env = (s, [])) ∧
    (∀ (s : AgoraService) (e : IterOracle) (op : QueuedOperation)
        (rest : List QueuedOperation),
      s.operationQueue = op :: rest →
      (drainStep s e).2.head? = some (Output.attempt op s.state)) := by
  constructor
  · intro s env h
    unfold processOperationQueueI
    rcases h with h | h
    · rw [if_pos (Or.inl h)]
    · by_cases hq : (s.isProcessingQueue = true ∨ s.operationQueue.isEmpty = true)
      · rw [if_pos hq]
      · rw [if_neg hq, if_pos h]
  · intro s e op rest hq
    obtain ⟨tail, htail⟩ :=
      executeOperation_out_head { s with operationQueue := rest } op e
    unfold drainStep
    rw [hq]
    dsimp only
    cases hres : (executeOperation { s with operationQueue := rest } op e).2.2 with
    | ok v =>
      dsimp only
      rw [htail]
      rfl
    | error raw =>
      dsimp only
      by_cases hb : (classifyError raw).recoverable = true ∧ op.retryCount < 3
      · rw [if_pos hb]
        dsimp only
        rw [htail]
        rfl
      · rw [if_neg hb]
        dsimp only
        rw [htail]
        rfl

/-- Witness for the amended C2: a drain request in RECONNECTING is refused,
and a drain iteration in READY executes the head operation. -/
theorem drain_guard_checked_at_entry_only_witness :
    processOperationQueueI c2Blocked [] = (c2Blocked, []) ∧
    (drainStep c2Service {}).2.head? =
      some (Output.attempt c2op1 AgoraServiceState.READY) :=
  ⟨drain_guard_checked_at_entry_only.1 c2Blocked [] (Or.inr (by decide)),
   drain_guard_checked_at_entry_only.2 c2Service {} c2op1 [c2op2] (by decide)⟩

/-- Counterexample to C2 as stated: from READY, a drain of two queued no-op
operations is started; during the first awaited execution the state moves to
RECONNECTING, yet the drain does not stop — the second operation is executed
while the state is RECONNECTING and the queue ends empty instead of retaining
it for the next drainable state. -/
theorem drain_continues_after_state_change :
    (processOperationQueueI c2Service c2Env).1.operationQueue = [] ∧
    Output.attempt c2op2 AgoraServiceState.RECONNECTING ∈
      (processOperationQueueI c2Service c2Env).2 := by
  decide

/-- Claim C3: when a queued operation's execution fails, the failure is
classified; a recoverable failure with retry counter below 3 re-inserts the
operation at the head of the queue with the counter bumped (and emits
nothing); otherwise the classified error is emitted and the operation is
dropped.  Consequently a persistently failing recoverable operation is
executed 4 times (3 retries) and then dropped with an error emitted, while a
non-recoverable failure is dropped with an error emitted after exactly one
attempt even though the environment would allow more. -/
theorem queue_retry_bounds :
    (∀ (s : AgoraService) (op : QueuedOperation) (rest : List QueuedOperation)
        (e : IterOracle) (t : AgoraService) (out : List Output) (raw : RawError),
      s.operationQueue = op :: rest →
      executeOperation { s with operationQueue := rest } op e =
        (t, out, Except.error raw) →
      (classifyError raw).recoverable = true → op.retryCount < 3 →
      drainStep s e =
        ({ t with operationQueue :=
            { op with retryCount := op.retryCount + 1 } :: t.operationQueue }, out)) ∧
    (∀ (s : AgoraService) (op : QueuedOperation) (rest : List QueuedOperation)
        (e : IterOracle) (t : AgoraService) (out : List Output) (raw : RawError),
      s.operationQueue = op :: rest →
      executeOperation { s with operationQueue := rest } op e =
        (t, out, Except.error raw) →
      ¬((classifyError raw).recoverable = true ∧ op.retryCount < 3) →
      drainStep s e = (t, out ++ [Output.errorEmitted (classifyError raw)])) ∧
    (∀ raw : RawError, (classifyError raw).recoverable = true →
      countAttempts (processOperationQueue retryService (retryEnv raw)).2 = 4 ∧
      (processOperationQueue retryService (retryEnv raw)).1.operationQueue = [] ∧
      Output.errorEmitted (classifyError raw) ∈
        (processOperationQueue retryService (retryEnv raw)).2) ∧
    (∀ raw : RawError, (classifyError raw).recoverable = false →
      countAttempts (processOperationQueue retryService (retryEnv raw)).2 = 1 ∧
      (processOperationQueue retryService (retryEnv raw)).1.operationQueue = [] ∧
      Output.errorEmitted (classifyError raw) ∈
        (processOperationQueue retryService (retryEnv raw)).2) := by
  refine ⟨?_, ?_, ?_, ?_⟩
  · intro s op rest e t out raw hq hexec hrec hlt
    unfold drainStep
    rw [hq]
    dsimp only
    rw [hexec]
    dsimp only
    rw [if_pos ⟨hrec, hlt⟩]
  · intro s op rest e t out raw hq hexec hnot
    unfold drainStep
    rw [hq]
    dsimp only
    rw [hexec]
    dsimp only
    rw [if_neg hnot]
  · intro raw hrec
    refine ⟨?_, ?_, ?_⟩ <;>
      simp [processOperationQueue, retryService, retryEnv, retryOp, drainLoop, drainStep,
        executeOperation, doPublishAudio, countAttempts, hrec, List.replicate]
  · intro raw hrec
    refine ⟨?_, ?_, ?_⟩ <;>
      simp [processOperationQueue, retryService, retryEnv, retryOp, drainLoop, drainStep,
        executeOperation, doPublishAudio, countAttempts, hrec, List.replicate]

/-- Witness for C3: a recoverable failure bumps the counter and re-inserts at
the head; a non-recoverable (permission) failure is dropped with the error
emitted; the full runs execute the operation 4 times and once
respectively. -/
theorem queue_retry_bounds_witness :
    drainStep retryService
        { micResult := Except.error { message := "boom", code := none } } =
      ({ retryService with operationQueue := [{ retryOp with retryCount := 1 }] },
       [Output.attempt retryOp AgoraServiceState.READY,
        Output.errorEmitted (classifyError { message := "boom", code := none })]) ∧
    drainStep retryService
        { micResult := Except.error { message := "permission denied", code := none } } =
      ({ retryService with operationQueue := ([] : List QueuedOperation) },
       [Output.attempt retryOp AgoraServiceState.READY,
        Output.errorEmitted (classifyError { message := "permission denied", code := none }),
        Output.errorEmitted (classifyError { message := "permission denied", code := none })]) ∧
    countAttempts (processOperationQueue retryService
      (retryEnv { message := "boom", code := none })).2 = 4 ∧
    countAttempts (processOperationQueue retryService
      (retryEnv { message := "permission denied", code := none })).2 = 1 :=
  ⟨queue_retry_bounds.1 retryService retryOp []
      { micResult := Except.error { message := "boom", code := none } }
      { retryService with operationQueue := ([] : List QueuedOperation) }
      [Output.attempt retryOp AgoraServiceState.READY,
       Output.errorEmitted (classifyError { message := "boom", code := none })]
      { message := "boom", code := none }
      (by decide) (by decide) (by decide) (by decide),
   queue_retry_bounds.2.1 retryService retryOp []
      { micResult := Except.error { message := "permission denied", code := none } }
      { retryService with operationQueue := ([] : List QueuedOperation) }
      [Output.attempt retryOp AgoraServiceState.READY,
       Output.errorEmitted (classifyError { message := "permission denied", code := none })]
      { message := "permission denied", code := none }
      (by decide) (by decide) (by decide),
   (queue_retry_bounds.2.2.1 { message := "boom", code := none } (by decide)).1,
   (queue_retry_bounds.2.2.2 { message := "permission denied", code := none }
      (by decide)).1⟩

lemma doPublishVideo_drain (s : AgoraService) (p : Option Nat) (tid : Nat)
    (pres : Except RawError Unit)
    (h : s.state = AgoraServiceState.READY ∨ s.state = AgoraServiceState.PUBLISHED) :
    outputsLegal legalEdgeA (doPublishVideo s p tid pres).2.1 = true ∧
    ((doPublishVideo s p tid pres).1.state = AgoraServiceState.READY ∨
      (doPublishVideo s p tid pres).1.state = AgoraServiceState.PUBLISHED) ∧
    (doPublishVideo s p tid pres).1.reconnectTimer = s.reconnectTimer ∧
    (doPublishVideo s p tid pres).1.pendingReconnect = s.pendingReconnect ∧
    (doPublishVideo s p tid pres).1.currentUid = s.currentUid ∧
    (doPublishVideo s p tid pres).1.currentRoomCode = s.currentRoomCode ∧
    (doPublishVideo s p tid pres).1.client = s.client := by
  unfold doPublishVideo
  have e1 : legalEdgeA s.state AgoraServiceState.PUBLISHING = true := by
    rcases h with h | h <;> rw [h] <;> rfl
  have e2 : ¬(s.state = AgoraServiceState.PUBLISHING) := by
    rcases h with h | h <;> rw [h] <;> decide
  have e3 : legalEdgeA AgoraServiceState.PUBLISHING AgoraServiceState.PUBLISHED = true := rfl
  have e4 : legalEdgeA AgoraServiceState.PUBLISHING AgoraServiceState.READY = true := rfl
  by_cases hc : s.client = false
  · rw [if_pos hc]
    exact ⟨rfl, h, rfl, rfl, rfl, rfl, rfl⟩
  · rw [if_neg hc, if_neg (not_not_intro h)]
    cases hv : s.tracks.videoTrack with
    | some t => exact ⟨rfl, h, rfl, rfl, rfl, rfl, rfl⟩
    | none =>
      cases pres with
      | ok v =>
        dsimp only
        refine ⟨?_, Or.inr ?_, ?_, ?_, ?_, ?_, ?_⟩ <;>
          simp [transitionTo_fst, transitionTo_out, e1, e2, e3, e4, outputsLegal,
            outputsLegal_append]
      | error raw =>
        dsimp only
        split <;>
          (refine ⟨?_, Or.inl ?_, ?_, ?_, ?_, ?_, ?_⟩ <;>
            simp [transitionTo_fst, transitionTo_out, e1, e2, e3, e4, outputsLegal,
              outputsLegal_append])

lemma doPublishAudio_drain (s : AgoraService) (mic : Except RawError Nat)
    (pres : Except RawError Unit)
    (h : s.state = AgoraServiceState.READY ∨ s.state = AgoraServiceState.PUBLISHED) :
    outputsLegal legalEdgeA (doPublishAudio s mic pres).2.1 = true ∧
    (doPublishAudio s mic pres).1.state = s.state ∧
    (doPublishAudio s mic pres).1.reconnectTimer = s.reconnectTimer ∧
    (doPublishAudio s mic pres).1.pendingReconnect = s.pendingReconnect ∧
    (doPublishAudio s mic pres).1.currentUid = s.currentUid ∧
    (doPublishAudio s mic pres).1.currentRoomCode = s.currentRoomCode ∧
    (doPublishAudio s mic pres).1.client = s.client := by
  unfold doPublishAudio
  rcases h with h | h <;>
  · by_cases hc : s.client = false
    · simp [hc, outputsLegal, h]
    · cases ha : s.tracks.audioTrack with
      | some t => simp [hc, ha, outputsLegal, h]
      | none =>
        cases mic with
        | error raw => simp [hc, ha, h, outputsLegal]
        | ok tid => cases pres <;> simp [hc, ha, h, outputsLegal]

lemma executeOperation_drain (s : AgoraService) (op : QueuedOperation) (e : IterOracle)
    (h : s.state = AgoraServiceState.READY ∨ s.state = AgoraServiceState.PUBLISHED) :
    outputsLegal legalEdgeA (executeOperation s op e).2.1 = true ∧
    ((executeOperation s op e).1.state = AgoraServiceState.READY ∨
      (executeOperation s op e).1.state = AgoraServiceState.PUBLISHED) ∧
    (executeOperation s op e).1.reconnectTimer = s.reconnectTimer ∧
    (executeOperation s op e).1.pendingReconnect = s.pendingReconnect ∧
    (executeOperation s op e).1.currentUid = s.currentUid ∧
    (executeOperation s op e).1.currentRoomCode = s.currentRoomCode ∧
    (executeOperation s op e).1.client = s.client := by
  unfold executeOperation
  cases hop : op.type with
  | PUBLISH_VIDEO =>
    obtain ⟨g1, g2, g3, g4, g5, g6, g7⟩ := doPublishVideo_drain s op.payload
      e.newTrackId e.publishResult h
    exact ⟨by dsimp only; rw [outputsLegal_cons_attempt, g1], g2, g3, g4, g5, g6, g7⟩
  | PUBLISH_AUDIO =>
    obtain ⟨g1, g2, g3, g4, g5, g6, g7⟩ := doPublishAudio_drain s e.micResult
      e.publishResult h
    exact ⟨by dsimp only; rw [outputsLegal_cons_attempt, g1], by rw [g2]; exact h,
      g3, g4, g5, g6, g7⟩
  | UNPUBLISH_VIDEO =>
    obtain ⟨g1, g2, g3, g4, g5, g6, g7, g8, g9, g10, g11, g12⟩ :=
      doUnpublishVideo_spec s e.unpublishResult
    refine ⟨by dsimp only; rw [outputsLegal_cons_attempt, g1], ?_, g5, g6, g7, g8, g9⟩
    rcases g2 with g2 | g2
    · rw [g2]; exact h
    · exact Or.inl g2.2
  | UNPUBLISH_AUDIO =>
    obtain ⟨g1, g2, g3, g4, g5, g6, g7, g8, g9, g10, g11, g12⟩ :=
      doUnpublishAudio_spec s e.unpublishResult
    exact ⟨by dsimp only; rw [outputsLegal_cons_attempt, g1], by rw [g2]; exact h,
      g5, g6, g7, g8, g9⟩
  | JOIN => exact ⟨by simp [outputsLegal], h, rfl, rfl, rfl, rfl, rfl⟩
  | LEAVE => exact ⟨by simp [outputsLegal], h, rfl, rfl, rfl, rfl, rfl⟩


lemma drainStep_drain (s : AgoraService) (e : IterOracle)
    (h : s.state = AgoraServiceState.READY ∨ s.state = AgoraServiceState.PUBLISHED) :
    outputsLegal legalEdgeA (drainStep s e).2 = true ∧
    ((drainStep s e).1.state = AgoraServiceState.READY ∨
      (drainStep s e).1.state = AgoraServiceState.PUBLISHED) ∧
    (drainStep s e).1.reconnectTimer = s.reconnectTimer ∧
    (drainStep s e).1.pendingReconnect = s.pendingReconnect ∧
    (drainStep s e).1.currentUid = s.currentUid ∧
    (drainStep s e).1.currentRoomCode = s.currentRoomCode ∧
    (drainStep s e).1.client = s.client := by
  unfold drainStep
  cases hq : s.operationQueue with
  | nil => exact ⟨by simp [outputsLegal], h, rfl, rfl, rfl, rfl, rfl⟩
  | cons op rest =>
    dsimp only
    obtain ⟨g1, g2, g3, g4, g5, g6, g7⟩ :=
      executeOperation_drain { s with operationQueue := rest } op e h
    cases hres : (executeOperation { s with operationQueue := rest } op e).2.2 with
    | ok v => exact ⟨g1, g2, g3, g4, g5, g6, g7⟩
    | error raw =>
      dsimp only
      by_cases hb : (classifyError raw).recoverable = true ∧ op.retryCount < 3
      · rw [if_pos hb]
        exact ⟨g1, g2, g3, g4, g5, g6, g7⟩
      · rw [if_neg hb]
        refine ⟨?_, g2, g3, g4, g5, g6, g7⟩
        rw [outputsLegal_append, g1]
        rfl

lemma drainLoop_drain (env : List IterOracle) : ∀ (s : AgoraService),
    (s.state = AgoraServiceState.READY ∨ s.state = AgoraServiceState.PUBLISHED) →
    outputsLegal legalEdgeA (drainLoop s env).2 = true ∧
    ((drainLoop s env).1.state = AgoraServiceState.READY ∨
      (drainLoop s env).1.state = AgoraServiceState.PUBLISHED) ∧
    (drainLoop s env).1.reconnectTimer = s.reconnectTimer ∧
    (drainLoop s env).1.pendingReconnect = s.pendingReconnect ∧
    (drainLoop s env).1.currentUid = s.currentUid ∧
    (drainLoop s env).1.currentRoomCode = s.currentRoomCode ∧
    (drainLoop s env).1.client = s.client := by
  induction env with
  | nil => exact fun s h => ⟨rfl, h, rfl, rfl, rfl, rfl, rfl⟩
  | cons e env ih =>
    intro s h
    unfold drainLoop
    by_cases hq : s.operationQueue.isEmpty = true
    · rw [if_pos hq]
      exact ⟨rfl, h, rfl, rfl, rfl, rfl, rfl⟩
    · rw [if_neg hq]
      dsimp only
      obtain ⟨g1, g2, g3, g4, g5, g6, g7⟩ := drainStep_drain s e h
      obtain ⟨i1, i2, i3, i4, i5, i6, i7⟩ := ih (drainStep s e).1 g2
      refine ⟨?_, i2, i3.trans g3, i4.trans g4, i5.trans g5, i6.trans g6, i7.trans g7⟩
      rw [outputsLegal_append, g1, i1]
      rfl

lemma processOperationQueue_spec (s : AgoraService) (env : List IterOracle) :
    outputsLegal legalEdgeA (processOperationQueue s env).2 = true ∧
    ((processOperationQueue s env).1.state = s.state ∨
      ((s.state = AgoraServiceState.READY ∨ s.state = AgoraServiceState.PUBLISHED) ∧
        ((processOperationQueue s env).1.state = AgoraServiceState.READY ∨
          (processOperationQueue s env).1.state = AgoraServiceState.PUBLISHED))) ∧
    (processOperationQueue s env).1.reconnectTimer = s.reconnectTimer ∧
    (processOperationQueue s env).1.pendingReconnect = s.pendingReconnect ∧
    (processOperationQueue s env).1.currentUid = s.currentUid ∧
    (processOperationQueue s env).1.currentRoomCode = s.currentRoomCode ∧
    (processOperationQueue s env).1.client = s.client := by
  unfold processOperationQueue
  by_cases h1 : (s.isProcessingQueue = true ∨ s.operationQueue.isEmpty = true)
  · rw [if_pos h1]
    exact ⟨rfl, Or.inl rfl, rfl, rfl, rfl, rfl, rfl⟩
  · rw [if_neg h1]
    by_cases h2 : ¬(s.state = AgoraServiceState.READY ∨
        s.state = AgoraServiceState.PUBLISHED)
    · rw [if_pos h2]
      exact ⟨rfl, Or.inl rfl, rfl, rfl, rfl, rfl, rfl⟩
    · rw [if_neg h2]
      rw [not_not] at h2
      obtain ⟨g1, g2, g3, g4, g5, g6, g7⟩ :=
        drainLoop_drain env { s with isProcessingQueue := true } h2
      exact ⟨g1, Or.inr ⟨h2, g2⟩, g3, g4, g5, g6, g7⟩

lemma queueOperation_spec (s : AgoraService) (op : QueuedOperation)
    (env : List IterOracle) :
    outputsLegal legalEdgeA (queueOperation s op env).2 = true ∧
    ((queueOperation s op env).1.state = s.state ∨
      ((s.state = AgoraServiceState.READY ∨ s.state = AgoraServiceState.PUBLISHED) ∧
        ((queueOperation s op env).1.state = AgoraServiceState.READY ∨
          (queueOperation s op env).1.state = AgoraServiceState.PUBLISHED))) ∧
    (queueOperation s op env).1.reconnectTimer = s.reconnectTimer ∧
    (queueOperation s op env).1.pendingReconnect = s.pendingReconnect ∧
    (queueOperation s op env).1.currentUid = s.currentUid ∧
    (queueOperation s op env).1.currentRoomCode = s.currentRoomCode ∧
    (queueOperation s op env).1.client = s.client := by
  unfold queueOperation
  by_cases h : (({ s with operationQueue := s.operationQueue ++ [op] } :
      AgoraService).state = AgoraServiceState.READY ∨
      ({ s with operationQueue := s.operationQueue ++ [op] } :
        AgoraService).state = AgoraServiceState.PUBLISHED)
  · rw [if_pos h]
    obtain ⟨g1, g2, g3, g4, g5, g6, g7⟩ :=
      processOperationQueue_spec { s with operationQueue := s.operationQueue ++ [op] } env
    exact ⟨g1, g2, g3, g4, g5, g6, g7⟩
  · rw [if_neg h]
    exact ⟨rfl, Or.inl rfl, rfl, rfl, rfl, rfl, rfl⟩

lemma legalEdgeA_toError (p : AgoraServiceState) :
    atRestState p = true → p ≠ AgoraServiceState.IDLE →
    p = AgoraServiceState.ERROR ∨ legalEdgeA p AgoraServiceState.ERROR = true := by
  cases p <;> decide

lemma legalEdgeA_toReconnecting (p : AgoraServiceState) :
    atRestState p = true → p ≠ AgoraServiceState.IDLE →
    p = AgoraServiceState.RECONNECTING ∨
      legalEdgeA p AgoraServiceState.RECONNECTING = true := by
  cases p <;> decide

lemma Inv_transport (s t : AgoraService)
    (h1 : t.state = s.state) (h2 : t.client = s.client)
    (h3 : t.pendingReconnect = s.pendingReconnect)
    (h4 : t.reconnectTimer = s.reconnectTimer)
    (h5 : t.currentUid = s.currentUid) (h6 : t.currentRoomCode = s.currentRoomCode)
    (hInv : Inv s) : Inv t := by
  obtain ⟨iA, iB, iC, iD, iE⟩ := hInv
  refine ⟨?_, ?_, ?_, ?_, ?_⟩
  · rw [h1]; exact iA
  · intro h
    rw [h2, h3, h4]
    exact iB (by rw [← h1]; exact h)
  · intro h
    rw [h4] at h
    rcases iC h with hl | hr
    · exact Or.inl (by rw [h1, hl])
    · exact Or.inr (by rw [h3, hr])
  · intro h
    rw [h3]
    exact iD (by rw [← h1]; exact h)
  · intro h
    rw [h5, h6]
    exact iE (by rw [← h1]; exact h)

lemma createClient_cases (s : AgoraService) :
    (createClient s).1 = s ∨ (createClient s).1 = { s with client := true } := by
  unfold createClient
  split
  · exact Or.inl rfl
  · split
    · exact Or.inl rfl
    · exact Or.inr rfl

lemma createClient_ok_client (s : AgoraService) (v : Unit)
    (h : (createClient s).2 = Except.ok v) : (createClient s).1.client = true := by
  unfold createClient at h ⊢
  by_cases hc : s.client = true
  · rw [if_pos hc] at h ⊢
    exact hc
  · rw [if_neg hc] at h ⊢
    by_cases ha : s.config.appId = ""
    · rw [if_pos ha] at h
      cases h
    · rw [if_neg ha] at h ⊢

lemma joinChannel_spec (s : AgoraService) (jr : Except RawError Unit) :
    ((s.state = AgoraServiceState.INITIALIZING ∨
        s.state = AgoraServiceState.RECONNECTING) →
      outputsLegal legalEdgeA (joinChannel s jr).2.1 = true) ∧
    ((joinChannel s jr).1.state = s.state ∨
      (joinChannel s jr).1.state = AgoraServiceState.JOINING ∨
      (joinChannel s jr).1.state = AgoraServiceState.ERROR) ∧
    (∀ raw, (joinChannel s jr).2.2 = Except.error raw →
      ((joinChannel s jr).1.state = s.state ∨
        (joinChannel s jr).1.state = AgoraServiceState.ERROR)) ∧
    (s.client = true → ∀ v, jr = Except.ok v →
      (joinChannel s jr).1.state = AgoraServiceState.JOINING) ∧
    (joinChannel s jr).1.client = s.client ∧
    (joinChannel s jr).1.config = s.config ∧
    (joinChannel s jr).1.tracks = s.tracks ∧
    (joinChannel s jr).1.operationQueue = s.operationQueue ∧
    (joinChannel s jr).1.isProcessingQueue = s.isProcessingQueue ∧
    (joinChannel s jr).1.reconnectAttempts = s.reconnectAttempts ∧
    (joinChannel s jr).1.reconnectTimer = s.reconnectTimer ∧
    (joinChannel s jr).1.pendingReconnect = s.pendingReconnect ∧
    (joinChannel s jr).1.currentUid = s.currentUid ∧
    (joinChannel s jr).1.currentRoomCode = s.currentRoomCode ∧
    (∀ v, (joinChannel s jr).2.2 = Except.ok v →
      ((joinChannel s jr).1.state = AgoraServiceState.JOINING ∨
        s.client = false)) := by
  unfold joinChannel
  by_cases hc : s.client = false
  · rw [if_pos hc]
    refine ⟨fun _ => rfl, Or.inl rfl, fun _ _ => Or.inl rfl, ?_, rfl, rfl, rfl, rfl,
      rfl, rfl, rfl, rfl, rfl, rfl, fun v h => Or.inr hc⟩
    intro ht
    rw [ht] at hc
    cases hc
  · rw [if_neg hc]
    cases jr with
    | ok v =>
      dsimp only
      refine ⟨?_, Or.inr (Or.inl (by rw [transitionTo_fst])), ?_, ?_, ?_, ?_, ?_, ?_,
        ?_, ?_, ?_, ?_, ?_, ?_,
        fun w h => Or.inl (by rw [transitionTo_fst])⟩ <;>
        try simp [transitionTo_fst]
      · intro h
        refine outputsLegal_transitionTo _ _ _ ?_
        rcases h with h | h <;> rw [h]
        · exact Or.inr rfl
        · exact Or.inr rfl
    | error raw =>
      dsimp only
      have h1 : (s.state = AgoraServiceState.INITIALIZING ∨
          s.state = AgoraServiceState.RECONNECTING) →
          outputsLegal legalEdgeA
            (transitionTo s AgoraServiceState.JOINING none).2.1 = true := by
        intro h
        refine outputsLegal_transitionTo _ _ _ ?_
        rcases h with h | h <;> rw [h]
        · exact Or.inr rfl
        · exact Or.inr rfl
      have h2 : outputsLegal legalEdgeA
          (transitionTo (transitionTo s AgoraServiceState.JOINING none).1
            AgoraServiceState.ERROR (some (classifyError raw))).2.1 = true := by
        refine outputsLegal_transitionTo _ _ _ (Or.inr ?_)
        rw [transitionTo_fst]
        rfl
      refine ⟨?_, ?_, ?_, ?_, ?_, ?_, ?_, ?_, ?_, ?_, ?_, ?_, ?_, ?_,
        fun v hv => nomatch hv⟩
      · intro h
        rw [outputsLegal_append, h1 h, h2]
        rfl
      · exact Or.inr (Or.inr (by simp [transitionTo_fst]))
      · intro _ _
        exact Or.inr (by simp [transitionTo_fst])
      · intro _ v hv
        cases hv
      · simp [transitionTo_fst]
      · simp [transitionTo_fst]
      · simp [transitionTo_fst]
      · simp [transitionTo_fst]
      · simp [transitionTo_fst]
      · simp [transitionTo_fst]
      · simp [transitionTo_fst]
      · simp [transitionTo_fst]
      · simp [transitionTo_fst]
      · simp [transitionTo_fst]

lemma startReconnection_inv (s : AgoraService)
    (h1 : atRestState s.state = true) (h2 : s.state ≠ AgoraServiceState.IDLE)
    (h3 : s.currentUid ≠ none) (h4 : s.currentRoomCode ≠ none) :
    Inv (startReconnection s).1 ∧
    outputsLegal legalEdgeA (startReconnection s).2 = true := by
  unfold startReconnection
  cases hp : s.pendingReconnect with
  | none =>
    exact ⟨⟨h1, fun hI => absurd hI h2, fun _ => Or.inr hp, fun _ => hp,
      fun _ => ⟨h3, h4⟩⟩, rfl⟩
  | some pr =>
    by_cases hex : s.config.maxReconnectAttempts ≤ s.reconnectAttempts
    · rw [if_pos hex]
      dsimp only
      constructor
      · refine ⟨?_, ?_, ?_, ?_, ?_⟩
        · simp [transitionTo_fst, atRestState]
        · simp [transitionTo_fst]
        · intro _
          exact Or.inr rfl
        · intro _
          rfl
        · intro _
          constructor
          · simp only [transitionTo_fst]
            exact h3
          · simp only [transitionTo_fst]
            exact h4
      · rcases legalEdgeA_toError s.state h1 h2 with he | he
        · rw [transitionTo_out]
          simp [he, outputsLegal]
        · exact outputsLegal_transitionTo _ _ _ (Or.inr he)
    · rw [if_neg hex]
      dsimp only
      constructor
      · refine ⟨?_, ?_, ?_, ?_, ?_⟩
        · simp [transitionTo_fst, atRestState]
        · simp [transitionTo_fst]
        · intro _
          left
          simp [transitionTo_fst]
        · simp [transitionTo_fst]
        · intro _
          constructor
          · simp only [transitionTo_fst]
            exact h3
          · simp only [transitionTo_fst]
            exact h4
      · rw [outputsLegal_append,
          outputsLegal_transitionTo
            { s with reconnectAttempts := s.reconnectAttempts + 1,
                     pendingReconnect := some pr }
            AgoraServiceState.RECONNECTING none
            (legalEdgeA_toReconnecting s.state h1 h2)]
        rfl

lemma handleDisconnection_inv (s : AgoraService)
    (h1 : atRestState s.state = true) (h2 : s.state ≠ AgoraServiceState.IDLE)
    (h3 : s.currentUid ≠ none) (h4 : s.currentRoomCode ≠ none) :
    Inv (handleDisconnection s).1 ∧
    outputsLegal legalEdgeA (handleDisconnection s).2 = true := by
  unfold handleDisconnection
  cases hu : s.currentUid with
  | none => exact absurd hu h3
  | some uid =>
    cases hr : s.currentRoomCode with
    | none => exact absurd hr h4
    | some room =>
      dsimp only
      rw [← hu, ← hr]
      exact startReconnection_inv { s with pendingReconnect := some (uid, room) }
        h1 h2 h3 h4

lemma initSessionConnect_inv (x : AgoraService) (jr : Except RawError Unit)
    (hx : x.state = AgoraServiceState.IDLE ∨ x.state = AgoraServiceState.ERROR)
    (hpr : x.pendingReconnect = none)
    (hu : x.currentUid ≠ none) (hrm : x.currentRoomCode ≠ none) :
    Inv (initSessionConnect x jr).1 ∧
    outputsLegal legalEdgeA (initSessionConnect x jr).2 = true := by
  have hIedge : legalEdgeA x.state AgoraServiceState.INITIALIZING = true := by
    rcases hx with h | h <;> rw [h] <;> rfl
  have hIout : outputsLegal legalEdgeA
      (transitionTo x AgoraServiceState.INITIALIZING none).2.1 = true :=
    outputsLegal_transitionTo _ _ _ (Or.inr hIedge)
  have hrcstate : (createClient
      (transitionTo x AgoraServiceState.INITIALIZING none).1).1.state =
      AgoraServiceState.INITIALIZING := by
    rcases createClient_cases (transitionTo x AgoraServiceState.INITIALIZING none).1
      with hcc | hcc <;> rw [hcc, transitionTo_fst]
  have hrcpr : (createClient
      (transitionTo x AgoraServiceState.INITIALIZING none).1).1.pendingReconnect =
      none := by
    rcases createClient_cases (transitionTo x AgoraServiceState.INITIALIZING none).1
      with hcc | hcc <;> rw [hcc, transitionTo_fst] <;> exact hpr
  have hrcuid : (createClient
      (transitionTo x AgoraServiceState.INITIALIZING none).1).1.currentUid =
      x.currentUid := by
    rcases createClient_cases (transitionTo x AgoraServiceState.INITIALIZING none).1
      with hcc | hcc <;> rw [hcc, transitionTo_fst]
  have hrcroom : (createClient
      (transitionTo x AgoraServiceState.INITIALIZING none).1).1.currentRoomCode =
      x.currentRoomCode := by
    rcases createClient_cases (transitionTo x AgoraServiceState.INITIALIZING none).1
      with hcc | hcc <;> rw [hcc, transitionTo_fst]
  unfold initSessionConnect
  dsimp only
  cases hrc : (createClient (transitionTo x AgoraServiceState.INITIALIZING none).1).2 with
  | error raw =>
    dsimp only
    constructor
    · refine ⟨?_, ?_, ?_, ?_, ?_⟩
      · rw [transitionTo_fst]
        rfl
      · rw [transitionTo_fst]
        exact fun h => nomatch h
      · intro _
        refine Or.inr ?_
        rw [transitionTo_fst]
        exact hrcpr
      · intro _
        rw [transitionTo_fst]
        exact hrcpr
      · intro _
        constructor
        · rw [transitionTo_fst]
          show (createClient
            (transitionTo x AgoraServiceState.INITIALIZING none).1).1.currentUid ≠ none
          rw [hrcuid]
          exact hu
        · rw [transitionTo_fst]
          show (createClient
            (transitionTo x AgoraServiceState.INITIALIZING none).1).1.currentRoomCode ≠ none
          rw [hrcroom]
          exact hrm
    · have hB : outputsLegal legalEdgeA
          (transitionTo
            (createClient (transitionTo x AgoraServiceState.INITIALIZING none).1).1
            AgoraServiceState.ERROR (some (classifyError raw))).2.1 = true :=
        outputsLegal_transitionTo _ _ _ (Or.inr (by rw [hrcstate]; decide))
      rw [outputsLegal_append, outputsLegal_append, hIout, hB]
      rfl
  | ok v =>
    dsimp only
    have hclient := createClient_ok_client _ v hrc
    obtain ⟨j1, j2, j3, j4, j5, j6, j7, j8, j9, j10, j11, j12, j13, j14, j15⟩ :=
      joinChannel_spec
        (createClient (transitionTo x AgoraServiceState.INITIALIZING none).1).1 jr
    have hjout := j1 (Or.inl hrcstate)
    cases hres : (joinChannel
        (createClient (transitionTo x AgoraServiceState.INITIALIZING none).1).1
        jr).2.2 with
    | ok w =>
      dsimp only
      have hJ : (joinChannel
          (createClient (transitionTo x AgoraServiceState.INITIALIZING none).1).1
          jr).1.state = AgoraServiceState.JOINING := by
        rcases j15 w hres with h | h
        · exact h
        · rw [hclient] at h
          cases h
      constructor
      · refine ⟨?_, ?_, ?_, ?_, ?_⟩
        · rw [hJ]
          rfl
        · intro h
          rw [hJ] at h
          cases h
        · intro _
          refine Or.inr ?_
          rw [j12, hrcpr]
        · intro h
          rw [hJ] at h
          cases h
        · intro _
          constructor
          · rw [j13, hrcuid]
            exact hu
          · rw [j14, hrcroom]
            exact hrm
      · rw [outputsLegal_append, hIout, hjout]
        rfl
    | error raw =>
      dsimp only
      have hB : outputsLegal legalEdgeA
          (transitionTo
            (joinChannel
              (createClient (transitionTo x AgoraServiceState.INITIALIZING none).1).1
              jr).1
            AgoraServiceState.ERROR (some (classifyError raw))).2.1 = true := by
        refine outputsLegal_transitionTo _ _ _ ?_
        rcases j3 raw hres with h | h
        · exact Or.inr (by rw [h, hrcstate]; decide)
        · exact Or.inl h
      constructor
      · refine ⟨?_, ?_, ?_, ?_, ?_⟩
        · rw [transitionTo_fst]
          rfl
        · rw [transitionTo_fst]
          exact fun h => nomatch h
        · intro _
          refine Or.inr ?_
          rw [transitionTo_fst]
          show (joinChannel
            (createClient (transitionTo x AgoraServiceState.INITIALIZING none).1).1
            jr).1.pendingReconnect = none
          rw [j12]
          exact hrcpr
        · intro _
          rw [transitionTo_fst]
          show (joinChannel
            (createClient (transitionTo x AgoraServiceState.INITIALIZING none).1).1
            jr).1.pendingReconnect = none
          rw [j12]
          exact hrcpr
        · intro _
          constructor
          · rw [transitionTo_fst]
            show (joinChannel
              (createClient (transitionTo x AgoraServiceState.INITIALIZING none).1).1
              jr).1.currentUid ≠ none
            rw [j13, hrcuid]
            exact hu
          · rw [transitionTo_fst]
            show (joinChannel
              (createClient (transitionTo x AgoraServiceState.INITIALIZING none).1).1
              jr).1.currentRoomCode ≠ none
            rw [j14, hrcroom]
            exact hrm
      · rw [outputsLegal_append, outputsLegal_append, outputsLegal_append, hIout,
          hjout, hB]
        rfl

lemma initSession_inv (s : AgoraService) (uid room : String)
    (jr : Except RawError Unit) (lo : LeaveOracle) (hInv : Inv s) :
    Inv (initSession s uid room jr lo).1 ∧
    outputsLegal legalEdgeA (initSession s uid room jr lo).2 = true := by
  obtain ⟨iA, iB, iC, iD, iE⟩ := hInv
  unfold initSession
  by_cases he : (s.currentUid = some uid ∧ s.currentRoomCode = some room ∧
      (s.state = AgoraServiceState.READY ∨ s.state = AgoraServiceState.PUBLISHED ∨
       s.state = AgoraServiceState.JOINING ∨ s.state = AgoraServiceState.INITIALIZING))
  · rw [if_pos he]
    exact ⟨⟨iA, iB, iC, iD, iE⟩, rfl⟩
  · rw [if_neg he]
    by_cases ht : (s.state ≠ AgoraServiceState.IDLE ∧ s.state ≠ AgoraServiceState.ERROR)
    · rw [if_pos ht]
      dsimp only
      obtain ⟨l1, l2, l3, l4, l5, l6, l7, l8, l9, l10, l11, l12⟩ := leaveService_spec s lo
      obtain ⟨c1, c2⟩ := initSessionConnect_inv
        { (leaveService s lo).1 with currentUid := some uid, currentRoomCode := some room }
        jr (Or.inl l1) l9 (by simp) (by simp)
      refine ⟨c1, ?_⟩
      rw [outputsLegal_append, l12, c2]
      rfl
    · rw [if_neg ht]
      dsimp only
      rw [not_and_or, not_not, not_not] at ht
      have hprS : s.pendingReconnect = none := by
        rcases ht with h | h
        · exact (iB h).2.1
        · exact iD h
      obtain ⟨c1, c2⟩ := initSessionConnect_inv
        { s with currentUid := some uid, currentRoomCode := some room } jr ht hprS
        (by simp) (by simp)
      refine ⟨c1, ?_⟩
      rw [outputsLegal_append, c2]
      rfl

lemma timerRejoin_inv (y : AgoraService) (jr : Except RawError Unit)
    (hst : y.state = AgoraServiceState.RECONNECTING) (hcl : y.client = true)
    (htm : y.reconnectTimer = none)
    (hu : y.currentUid ≠ none) (hrm : y.currentRoomCode ≠ none) :
    Inv (timerRejoin y jr).1 ∧
    outputsLegal legalEdgeA (timerRejoin y jr).2 = true := by
  obtain ⟨j1, j2, j3, j4, j5, j6, j7, j8, j9, j10, j11, j12, j13, j14, j15⟩ :=
    joinChannel_spec y jr
  have hout : outputsLegal legalEdgeA (joinChannel y jr).2.1 = true := j1 (Or.inr hst)
  unfold timerRejoin
  dsimp only
  cases hres : (joinChannel y jr).2.2 with
  | ok v =>
    dsimp only
    have hJ : (joinChannel y jr).1.state = AgoraServiceState.JOINING := by
      rcases j15 v hres with h | h
      · exact h
      · rw [hcl] at h
        cases h
    by_cases ha : (joinChannel y jr).1.tracks.audioTrack.isSome = true
    · rw [if_pos ha]
      dsimp only
      obtain ⟨q1, q2, q3, q4, q5, q6, q7⟩ :=
        queueOperation_spec (joinChannel y jr).1
          { type := OperationType.PUBLISH_AUDIO } []
      have hq : (queueOperation (joinChannel y jr).1
          { type := OperationType.PUBLISH_AUDIO } []).1.state =
          AgoraServiceState.JOINING := by
        rcases q2 with h | ⟨h', _⟩
        · rw [h, hJ]
        · rcases h' with h' | h' <;> rw [hJ] at h' <;> cases h'
      constructor
      · refine ⟨?_, ?_, ?_, ?_, ?_⟩
        · rw [hq]
          rfl
        · intro h
          rw [hq] at h
          cases h
        · intro h
          rw [q3, j11, htm] at h
          exact absurd rfl h
        · intro h
          rw [hq] at h
          cases h
        · intro _
          constructor
          · rw [q5, j13]
            exact hu
          · rw [q6, j14]
            exact hrm
      · rw [outputsLegal_append, hout, q1]
        rfl
    · rw [if_neg ha]
      dsimp only
      constructor
      · refine ⟨?_, ?_, ?_, ?_, ?_⟩
        · rw [hJ]
          rfl
        · intro h
          rw [hJ] at h
          cases h
        · intro h
          rw [j11, htm] at h
          exact absurd rfl h
        · intro h
          rw [hJ] at h
          cases h
        · intro _
          constructor
          · rw [j13]
            exact hu
          · rw [j14]
            exact hrm
      · exact hout
  | error raw =>
    dsimp only
    have hst' : atRestState (joinChannel y jr).1.state = true := by
      rcases j3 raw hres with h | h <;> rw [h]
      · rw [hst]
        rfl
      · rfl
    have hnI : (joinChannel y jr).1.state ≠ AgoraServiceState.IDLE := by
      rcases j3 raw hres with h | h <;> rw [h]
      · rw [hst]
        decide
      · decide
    obtain ⟨s1, s2⟩ := startReconnection_inv (joinChannel y jr).1 hst' hnI
      (by rw [j13]; exact hu) (by rw [j14]; exact hrm)
    refine ⟨s1, ?_⟩
    rw [outputsLegal_append, hout, s2]
    rfl

lemma timerFire_inv (s : AgoraService) (jr : Except RawError Unit) (hInv : Inv s) :
    Inv (timerFire s jr).1 ∧ outputsLegal legalEdgeA (timerFire s jr).2 = true := by
  obtain ⟨iA, iB, iC, iD, iE⟩ := hInv
  unfold timerFire
  cases htm : s.reconnectTimer with
  | none => exact ⟨⟨iA, iB, iC, iD, iE⟩, rfl⟩
  | some d =>
    have hnI : s.state ≠ AgoraServiceState.IDLE := by
      intro h
      have := (iB h).2.2
      rw [htm] at this
      cases this
    have hCd : s.state = AgoraServiceState.RECONNECTING ∨ s.pendingReconnect = none := by
      refine iC ?_
      rw [htm]
      exact fun hc => Option.noConfusion hc
    dsimp only
    have hInv0 : Inv { s with reconnectTimer := none } :=
      ⟨iA, fun h => ⟨(iB h).1, (iB h).2.1, rfl⟩, fun h => absurd rfl h,
        iD, fun h => iE h⟩
    by_cases hcl : ({ s with reconnectTimer := none } : AgoraService).client = true
    · rw [if_pos hcl]
      dsimp only
      cases hp : ({ s with reconnectTimer := none } : AgoraService).pendingReconnect with
      | none =>
        exact startReconnection_inv _ iA hnI (iE hnI).1 (iE hnI).2
      | some pr =>
        have hst : s.state = AgoraServiceState.RECONNECTING := by
          rcases hCd with h | h
          · exact h
          · rw [h] at hp
            cases hp
        exact timerRejoin_inv _ jr hst hcl rfl (iE hnI).1 (iE hnI).2
    · rw [if_neg hcl]
      rcases createClient_cases ({ s with reconnectTimer := none } : AgoraService)
        with hcc | hcc
      · cases hrc : (createClient { s with reconnectTimer := none }).2 with
        | error raw =>
          dsimp only
          rw [hcc]
          exact startReconnection_inv _ iA hnI (iE hnI).1 (iE hnI).2
        | ok v =>
          dsimp only
          rw [hcc]
          cases hp : ({ s with reconnectTimer := none } : AgoraService).pendingReconnect with
          | none => exact startReconnection_inv _ iA hnI (iE hnI).1 (iE hnI).2
          | some pr =>
            have hcl2 : ({ s with reconnectTimer := none } : AgoraService).client = true := by
              have := createClient_ok_client _ v hrc
              rw [hcc] at this
              exact this
            have hst : s.state = AgoraServiceState.RECONNECTING := by
              rcases hCd with h | h
              · exact h
              · rw [h] at hp
                cases hp
            exact timerRejoin_inv _ jr hst hcl2 rfl (iE hnI).1 (iE hnI).2
      · cases hrc : (createClient { s with reconnectTimer := none }).2 with
        | error raw =>
          dsimp only
          rw [hcc]
          exact startReconnection_inv _ iA hnI (iE hnI).1 (iE hnI).2
        | ok v =>
          dsimp only
          rw [hcc]
          cases hp : ({ { s with reconnectTimer := none } with client := true } :
              AgoraService).pendingReconnect with
          | none => exact startReconnection_inv _ iA hnI (iE hnI).1 (iE hnI).2
          | some pr =>
            have hst : s.state = AgoraServiceState.RECONNECTING := by
              rcases hCd with h | h
              · exact h
              · rw [h] at hp
                cases hp
            exact timerRejoin_inv _ jr hst rfl rfl (iE hnI).1 (iE hnI).2

lemma onConnectionEvent_inv (s : AgoraService) (ev : TransportEvent)
    (env : List IterOracle) (hInv : Inv s) :
    Inv (onConnectionEvent s ev env).1 ∧
    outputsLegal legalEdgeA (onConnectionEvent s ev env).2 = true := by
  obtain ⟨iA, iB, iC, iD, iE⟩ := hInv
  unfold onConnectionEvent
  by_cases hc : s.client = false
  · rw [if_pos hc]
    exact ⟨⟨iA, iB, iC, iD, iE⟩, rfl⟩
  · rw [if_neg hc]
    cases ev with
    | CONNECTED =>
      dsimp only
      by_cases hj : s.state = AgoraServiceState.JOINING
      · rw [if_pos hj]
        dsimp only
        have hnI : s.state ≠ AgoraServiceState.IDLE := by
          rw [hj]
          decide
        obtain ⟨g1, g2, g3, g4, g5, g6, g7⟩ :=
          processOperationQueue_spec (transitionTo s AgoraServiceState.READY none).1 env
        have hRstate : (transitionTo s AgoraServiceState.READY none).1.state =
            AgoraServiceState.READY := by
          rw [transitionTo_fst]
        have hqstate : (processOperationQueue
            (transitionTo s AgoraServiceState.READY none).1 env).1.state =
            AgoraServiceState.READY ∨
            (processOperationQueue
              (transitionTo s AgoraServiceState.READY none).1 env).1.state =
            AgoraServiceState.PUBLISHED := by
          rcases g2 with h | ⟨h0, h⟩
          · exact Or.inl (by rw [h, hRstate])
          · exact h
        have htm : (processOperationQueue
            (transitionTo s AgoraServiceState.READY none).1 env).1.reconnectTimer =
            s.reconnectTimer := by
          rw [g3, transitionTo_fst]
        have hpr : (processOperationQueue
            (transitionTo s AgoraServiceState.READY none).1 env).1.pendingReconnect =
            s.pendingReconnect := by
          rw [g4, transitionTo_fst]
        have huid : (processOperationQueue
            (transitionTo s AgoraServiceState.READY none).1 env).1.currentUid =
            s.currentUid := by
          rw [g5, transitionTo_fst]
        have hroom : (processOperationQueue
            (transitionTo s AgoraServiceState.READY none).1 env).1.currentRoomCode =
            s.currentRoomCode := by
          rw [g6, transitionTo_fst]
        constructor
        · refine ⟨?_, ?_, ?_, ?_, ?_⟩
          · show atRestState (processOperationQueue
              (transitionTo s AgoraServiceState.READY none).1 env).1.state = true
            rcases hqstate with h | h <;> rw [h] <;> rfl
          · intro h
            exfalso
            have h0 : (processOperationQueue
                (transitionTo s AgoraServiceState.READY none).1 env).1.state =
                AgoraServiceState.IDLE := h
            rcases hqstate with h2 | h2 <;> rw [h2] at h0 <;> cases h0
          · intro h
            have h0 : (processOperationQueue
                (transitionTo s AgoraServiceState.READY none).1 env).1.reconnectTimer ≠
                none := h
            rw [htm] at h0
            rcases iC h0 with hL | hR
            · exfalso
              rw [hj] at hL
              cases hL
            · refine Or.inr ?_
              show (processOperationQueue
                (transitionTo s AgoraServiceState.READY none).1 env).1.pendingReconnect =
                none
              rw [hpr]
              exact hR
          · intro h
            exfalso
            have h0 : (processOperationQueue
                (transitionTo s AgoraServiceState.READY none).1 env).1.state =
                AgoraServiceState.ERROR := h
            rcases hqstate with h2 | h2 <;> rw [h2] at h0 <;> cases h0
          · intro _
            constructor
            · show (processOperationQueue
                (transitionTo s AgoraServiceState.READY none).1 env).1.currentUid ≠ none
              rw [huid]
              exact (iE hnI).1
            · show (processOperationQueue
                (transitionTo s AgoraServiceState.READY none).1 env).1.currentRoomCode ≠
                none
              rw [hroom]
              exact (iE hnI).2
        · have hA : outputsLegal legalEdgeA
              (transitionTo s AgoraServiceState.READY none).2.1 = true :=
            outputsLegal_transitionTo _ _ _ (Or.inr (by rw [hj]; decide))
          rw [outputsLegal_append, hA, g1]
          rfl
      · rw [if_neg hj]
        exact ⟨Inv_transport s _ rfl rfl rfl rfl rfl rfl ⟨iA, iB, iC, iD, iE⟩, rfl⟩
    | DISCONNECTED =>
      dsimp only
      by_cases hg : (s.state ≠ AgoraServiceState.IDLE ∧
          s.state ≠ AgoraServiceState.ERROR)
      · rw [if_pos hg]
        exact handleDisconnection_inv s iA hg.1 (iE hg.1).1 (iE hg.1).2
      · rw [if_neg hg]
        exact ⟨⟨iA, iB, iC, iD, iE⟩, rfl⟩
    | RECONNECTING =>
      dsimp only
      by_cases hr : s.state ≠ AgoraServiceState.RECONNECTING
      · rw [if_pos hr]
        dsimp only
        have hnI : s.state ≠ AgoraServiceState.IDLE := fun h => hc (iB h).1
        constructor
        · refine ⟨?_, ?_, ?_, ?_, ?_⟩
          · rw [transitionTo_fst]
            rfl
          · rw [transitionTo_fst]
            exact fun h => nomatch h
          · intro _
            refine Or.inl ?_
            rw [transitionTo_fst]
          · intro h
            rw [transitionTo_fst] at h
            cases h
          · intro _
            constructor
            · rw [transitionTo_fst]
              exact (iE hnI).1
            · rw [transitionTo_fst]
              exact (iE hnI).2
        · exact outputsLegal_transitionTo _ _ _
            (legalEdgeA_toReconnecting s.state iA hnI)
      · rw [if_neg hr]
        exact ⟨⟨iA, iB, iC, iD, iE⟩, rfl⟩

lemma queueOperation_inv (s : AgoraService) (op : QueuedOperation)
    (env : List IterOracle) (hInv : Inv s) :
    Inv (queueOperation s op env).1 ∧
    outputsLegal legalEdgeA (queueOperation s op env).2 = true := by
  obtain ⟨iA, iB, iC, iD, iE⟩ := hInv
  obtain ⟨q1, q2, q3, q4, q5, q6, q7⟩ := queueOperation_spec s op env
  refine ⟨?_, q1⟩
  rcases q2 with h | ⟨hpre, hpost⟩
  · exact Inv_transport s _ h q7 q4 q3 q5 q6 ⟨iA, iB, iC, iD, iE⟩
  · have hnI : s.state ≠ AgoraServiceState.IDLE := by
      rcases hpre with h | h <;> rw [h] <;> decide
    refine ⟨?_, ?_, ?_, ?_, ?_⟩
    · rcases hpost with h | h <;> rw [h] <;> rfl
    · intro h
      rcases hpost with h2 | h2 <;> rw [h2] at h <;> cases h
    · intro h
      rw [q3] at h
      rcases iC h with hL | hR
      · exfalso
        rcases hpre with h2 | h2 <;> rw [h2] at hL <;> cases hL
      · exact Or.inr (by rw [q4]; exact hR)
    · intro h
      rcases hpost with h2 | h2 <;> rw [h2] at h <;> cases h
    · intro _
      exact ⟨by rw [q5]; exact (iE hnI).1, by rw [q6]; exact (iE hnI).2⟩

lemma setAudioEnabled_inv (s : AgoraService) (b : Bool) (hInv : Inv s) :
    Inv (setAudioEnabled s b).1 ∧
    outputsLegal legalEdgeA (setAudioEnabled s b).2 = true := by
  unfold setAudioEnabled
  cases s.tracks.audioTrack with
  | none => exact ⟨hInv, rfl⟩
  | some t => exact ⟨Inv_transport s _ rfl rfl rfl rfl rfl rfl hInv, rfl⟩

lemma setVideoEnabled_inv (s : AgoraService) (b : Bool) (hInv : Inv s) :
    Inv (setVideoEnabled s b).1 ∧
    outputsLegal legalEdgeA (setVideoEnabled s b).2 = true := by
  unfold setVideoEnabled
  cases s.tracks.videoTrack with
  | none => exact ⟨hInv, rfl⟩
  | some t => exact ⟨Inv_transport s _ rfl rfl rfl rfl rfl rfl hInv, rfl⟩

lemma leaveService_inv (s : AgoraService) (lo : LeaveOracle) :
    Inv (leaveService s lo).1 ∧
    outputsLegal legalEdgeA (leaveService s lo).2 = true := by
  obtain ⟨l1, l2, l3, l4, l5, l6, l7, l8, l9, l10, l11, l12⟩ := leaveService_spec s lo
  refine ⟨⟨?_, ?_, ?_, ?_, ?_⟩, l12⟩
  · rw [l1]
    rfl
  · intro _
    exact ⟨l2, l9, l8⟩
  · intro h
    rw [l8] at h
    exact absurd rfl h
  · intro _
    exact l9
  · intro h
    rw [l1] at h
    exact absurd rfl h

lemma step_inv (s : AgoraService) (c : Command) (hInv : Inv s) :
    Inv (step s c).1 ∧ outputsLegal legalEdgeA (step s c).2 = true := by
  cases c with
  | initCmd uid room jr lo => exact initSession_inv s uid room jr lo hInv
  | connEvent ev env => exact onConnectionEvent_inv s ev env hInv
  | timerCmd jr => exact timerFire_inv s jr hInv
  | pubVideo h tid env =>
    cases h with
    | false => exact ⟨hInv, rfl⟩
    | true =>
      exact queueOperation_inv s
        { type := OperationType.PUBLISH_VIDEO, payload := some tid } env hInv
  | pubAudio env =>
    exact queueOperation_inv s { type := OperationType.PUBLISH_AUDIO } env hInv
  | unpubVideo env =>
    exact queueOperation_inv s { type := OperationType.UNPUBLISH_VIDEO } env hInv
  | unpubAudio env =>
    exact queueOperation_inv s { type := OperationType.UNPUBLISH_AUDIO } env hInv
  | setAudio b => exact setAudioEnabled_inv s b hInv
  | setVideo b => exact setVideoEnabled_inv s b hInv
  | leaveCmd lo => exact leaveService_inv s lo
  | destroyCmd lo => exact leaveService_inv s lo

lemma run_inv : ∀ (cmds : List Command) (s : AgoraService), Inv s →
    Inv (run s cmds).1 ∧ outputsLegal legalEdgeA (run s cmds).2 = true
  | [], _, h => ⟨h, rfl⟩
  | c :: cs, s, h => by
    obtain ⟨h1, h2⟩ := step_inv s c h
    obtain ⟨h3, h4⟩ := run_inv cs (step s c).1 h1
    refine ⟨h3, ?_⟩
    show outputsLegal legalEdgeA ((step s c).2 ++ (run (step s c).1 cs).2) = true
    rw [outputsLegal_append, h2, h4]
    rfl

lemma Inv_mkService (cfg : AgoraServiceConfig) : Inv (mkService cfg) := by
  refine ⟨rfl, fun _ => ⟨rfl, rfl, rfl⟩, fun h => absurd rfl h, fun h => ?_,
    fun h => absurd rfl h⟩
  cases h

/-- Claim C1 (amended): every `onStateChange` notification produced by any
sequence of public calls and transport events, starting from a fresh service,
is an edge of the section 4.1 transition graph extended with the seven
code-forced edges: ERROR→INITIALIZING (re-initialize skips teardown from
ERROR), RECONNECTING→JOINING (timer rejoin), ERROR→RECONNECTING (transport
RECONNECTING signal in ERROR), JOINING→RECONNECTING (transport RECONNECTING
signal while joining), PUBLISHING→READY (publish failure fallback),
PUBLISHED→READY (unpublish), and PUBLISHED→PUBLISHING (republish after a
failed unpublish left the state at PUBLISHED). -/
theorem state_changes_follow_amended_graph (cfg : AgoraServiceConfig)
    (cmds : List Command) :
    outputsLegal legalEdgeA (run (mkService cfg) cmds).2 = true :=
  (run_inv cmds (mkService cfg) (Inv_mkService cfg)).2

/-- Counterexample to claim C1 as stated: with an empty app id, a first
`initialize` fails into ERROR, and a second `initialize` for the same session
then notifies ERROR→INITIALIZING, which is not an edge of the claimed
section 4.1 graph. -/
theorem illegal_transition_emitted :
    Output.stateChange AgoraServiceState.ERROR AgoraServiceState.INITIALIZING none ∈
      (run (mkService (DEFAULT_CONFIG "")) c1Commands).2 ∧
    legalEdge AgoraServiceState.ERROR AgoraServiceState.INITIALIZING = false ∧
    outputsLegal legalEdge (run (mkService (DEFAULT_CONFIG "")) c1Commands).2 = false := by
  decide

end AvatarRooms
